import Mathlib

/-!
Verification development for the PyAthena driver core.

This file gives a shallow embedding, in Lean, of the parts of the PyAthena
code base that its specification talks about:

* `pyathena/converter.py` — the untyped ("heuristic") cell converters, the
  DDL type-signature parser `parse_type_signature`, the type-hint driven
  recursive converter (`_convert_value_with_type` and friends) and
  `DefaultTypeConverter.convert`;
* `pyathena/parser.py` — the standalone `TypeSignatureParser` with its
  Hive-dialect normalisation helper and type-name aliases;
* `pyathena/common.py` — the polling loop `BaseCursor.__poll`, the result
  cache scan `BaseCursor._find_previous_query_id`, and the
  `CursorIterator.arraysize` setter;
* `pyathena/result_set.py` / `pyathena/cursor.py` — the `AthenaResultSet`
  fetch protocol (`fetchone` / `fetchmany`), `close`, and the `Cursor`
  arraysize setter.

Python-level conventions used throughout the embedding:

* A Python value that can appear in a converted cell is a `PyValue`.
  The Python `None` is `PyValue.null`.
* A Python function that can raise is embedded as an `Except PyErr _`
  value; `Except.error` is a raised exception.
* Machine integers are `Int` (Python ints are unbounded, so no wrap-around
  modelling is needed).
* Recursive string-consuming functions take an explicit fuel argument so
  that they are structurally recursive and kernel-reducible; the public
  wrappers pass fuel that is far larger than the recursion depth any of the
  evaluated inputs can need.  Running out of fuel is reported as
  `PyErr.recursionError` (the analogue of Python's `RecursionError`).
-/

namespace PyAthena

/-! #### Character-list string helpers

Lean's built-in `String.startsWith` / `trim` / `toLower` / … are
implemented on byte positions and do not reduce inside the kernel, so the
embedding defines the Python string operations it needs directly on the
character list of the string.  Semantics follow CPython on the ASCII
inputs this code handles. -/

/-- Python `str.startswith`. -/
def pyStartsWith (s prefx : String) : Bool := prefx.data.isPrefixOf s.data

/-- Python `str.endswith`. -/
def pyEndsWith (s sufx : String) : Bool := sufx.data.isSuffixOf s.data

/-- Python `c in s` for a single-character needle. -/
def pyContains (s : String) (c : Char) : Bool := s.data.contains c

/-- Python `str.lower` (ASCII). -/
def pyToLower (s : String) : String := String.mk (s.data.map Char.toLower)

/-- Python `str.upper` (ASCII). -/
def pyToUpper (s : String) : String := String.mk (s.data.map Char.toUpper)

/-- Python whitespace for `str.strip` (ASCII range). -/
def isPySpace (c : Char) : Bool :=
  c = ' ' || c = '\t' || c = '\n' || c = '\r' || c = '\x0b' || c = '\x0c'

/-- Python `str.strip()`. -/
def pyTrim (s : String) : String :=
  String.mk (((s.data.dropWhile isPySpace).reverse.dropWhile isPySpace).reverse)

/-- Worker for `pySplitOnChar`. -/
def pySplitGo (sep : Char) : List Char → List Char → List String → List String
  | [], cur, acc => acc ++ [String.mk cur.reverse]
  | c :: cs, cur, acc =>
      if c = sep then pySplitGo sep cs [] (acc ++ [String.mk cur.reverse])
      else pySplitGo sep cs (c :: cur) acc

/-- Python `str.split(sep)` for a single-character separator: splits at
every occurrence, keeping empty pieces (`"".split(",") == [""]`). -/
def pySplitOnChar (s : String) (sep : Char) : List String :=
  pySplitGo sep s.data [] []

/-- A Python runtime value, as produced by the converters in
`pyathena/converter.py`.  `float`, `decimal`, and the date/time and binary
values are carried symbolically (their textual payload is kept verbatim);
no claim in this development depends on their internal structure. -/
inductive PyValue where
  | null
  | bool (b : Bool)
  | int (n : Int)
  | float (raw : String)
  | str (s : String)
  | list (xs : List PyValue)
  | dict (xs : List (String × PyValue))
  | symbolic (kind : String) (raw : String)
  deriving Repr

/-- Exceptions that the embedded code can raise. -/
inductive PyErr where
  | valueError
  | programmingError (msg : String)
  | operationalError (msg : String)
  | dataError (msg : String)
  | recursionError
  deriving Repr, DecidableEq

mutual

/-- Structural Boolean equality of `PyValue`s (used to state concrete
evaluation results decidably). -/
def PyValue.beq : PyValue → PyValue → Bool
  | .null, .null => true
  | .bool a, .bool b => a == b
  | .int a, .int b => a == b
  | .float a, .float b => a == b
  | .str a, .str b => a == b
  | .list a, .list b => PyValue.beqList a b
  | .dict a, .dict b => PyValue.beqDict a b
  | .symbolic k a, .symbolic l b => k == l && a == b
  | _, _ => false

def PyValue.beqList : List PyValue → List PyValue → Bool
  | [], [] => true
  | a :: as, b :: bs => PyValue.beq a b && PyValue.beqList as bs
  | _, _ => false

def PyValue.beqDict : List (String × PyValue) → List (String × PyValue) → Bool
  | [], [] => true
  | (k, a) :: as, (l, b) :: bs => k == l && PyValue.beq a b && PyValue.beqDict as bs
  | _, _ => false

end

instance : BEq PyValue := ⟨PyValue.beq⟩

/-- Python dict insertion: overwrite in place if the key exists, otherwise
append (Python dicts are insertion-ordered). -/
def dictInsert (xs : List (String × PyValue)) (k : String) (v : PyValue) :
    List (String × PyValue) :=
  match xs with
  | [] => [(k, v)]
  | (k1, v1) :: rest =>
      if k1 = k then (k, v) :: rest else (k1, v1) :: dictInsert rest k v

/-- Models Python `int(str)`: optional surrounding whitespace, an optional
sign, then one or more decimal digits.  (Digit-group underscores and
non-ASCII digits accepted by CPython are not modelled; no evaluated input
uses them.)  `none` models a raised `ValueError`. -/
def pyIntOfString (s : String) : Option Int :=
  let t := pyTrim s
  let core : List Char → Option Int := fun ds =>
    if ds.isEmpty then none
    else if ds.all Char.isDigit then
      some (ds.foldl (fun acc c => acc * 10 + (c.toNat - '0'.toNat : Int)) 0)
    else none
  match t.data with
  | '-' :: rest => (core rest).map (fun n => -n)
  | '+' :: rest => core rest
  | ds => core ds

/-- Models Python `str(value)` for the scalar values that the JSON-path
conversion feeds back into the primitive converters.  For containers the
CPython `repr` output is not modelled (marker string); no claim evaluates
those cases.  For floats the raw parsed token is returned, which agrees
with CPython on the inputs used in this development (none). -/
def pyStr : PyValue → String
  | .null => "None"
  | .bool true => "True"
  | .bool false => "False"
  | .int n => toString n
  | .float raw => raw
  | .str s => s
  | .list _ => "<container repr not modelled>"
  | .dict _ => "<container repr not modelled>"
  | .symbolic _ raw => raw

/-! ### JSON model

`jsonLoads` models Python's `json.loads` (the one external library function
the converters depend on): RFC 8259 values built from `null`, `true`,
`false`, numbers, strings with the standard escapes, arrays and objects.
Integral numbers decode to Python `int` (`PyValue.int`); numbers with a
fraction or exponent decode to a `PyValue.float` carrying the raw token.
`none` models a raised `json.JSONDecodeError`. -/

/-- JSON insignificant whitespace. -/
def jsonWs (c : Char) : Bool := c = ' ' || c = '\t' || c = '\n' || c = '\r'

def skipWs : List Char → List Char
  | [] => []
  | c :: cs => if jsonWs c then skipWs cs else c :: cs

/-- Hex digit value for JSON `\uXXXX` escapes. -/
def jhexDigit (c : Char) : Option Nat :=
  if c.isDigit then some (c.toNat - '0'.toNat)
  else if 'a' ≤ c ∧ c ≤ 'f' then some (c.toNat - 'a'.toNat + 10)
  else if 'A' ≤ c ∧ c ≤ 'F' then some (c.toNat - 'A'.toNat + 10)
  else none

/-- Parse a JSON string body after the opening quote; returns the decoded
characters and the remaining input after the closing quote. -/
def jparseStringBody : List Char → Option (List Char × List Char)
  | [] => none
  | '"' :: rest => some ([], rest)
  | '\\' :: '"' :: rest => (jparseStringBody rest).map (fun p => ('"' :: p.1, p.2))
  | '\\' :: '\\' :: rest => (jparseStringBody rest).map (fun p => ('\\' :: p.1, p.2))
  | '\\' :: '/' :: rest => (jparseStringBody rest).map (fun p => ('/' :: p.1, p.2))
  | '\\' :: 'b' :: rest => (jparseStringBody rest).map (fun p => (Char.ofNat 8 :: p.1, p.2))
  | '\\' :: 'f' :: rest => (jparseStringBody rest).map (fun p => (Char.ofNat 12 :: p.1, p.2))
  | '\\' :: 'n' :: rest => (jparseStringBody rest).map (fun p => ('\n' :: p.1, p.2))
  | '\\' :: 'r' :: rest => (jparseStringBody rest).map (fun p => ('\r' :: p.1, p.2))
  | '\\' :: 't' :: rest => (jparseStringBody rest).map (fun p => ('\t' :: p.1, p.2))
  | '\\' :: 'u' :: h1 :: h2 :: h3 :: h4 :: rest =>
      (match jhexDigit h1, jhexDigit h2, jhexDigit h3, jhexDigit h4 with
       | some a, some b, some c, some d =>
           (jparseStringBody rest).map
             (fun p => (Char.ofNat (((a * 16 + b) * 16 + c) * 16 + d) :: p.1, p.2))
       | _, _, _, _ => none)
  | '\\' :: _ => none
  | c :: rest =>
      if c.toNat < 32 then none
      else (jparseStringBody rest).map (fun p => (c :: p.1, p.2))

/-- Parse a JSON number starting at the given input.  Returns the decoded
value and the rest.  Integral tokens become `PyValue.int`; tokens with a
fraction or exponent become `PyValue.float` carrying the raw token. -/
def jparseNumber (cs : List Char) : Option (PyValue × List Char) :=
  let digits : List Char → List Char × List Char := fun l => (l.takeWhile Char.isDigit, l.dropWhile Char.isDigit)
  let (neg, cs1) : Bool × List Char :=
    match cs with
    | '-' :: rest => (true, rest)
    | _ => (false, cs)
  let intPart : Option (List Char × List Char) :=
    match cs1 with
    | '0' :: rest => some (['0'], rest)
    | c :: _ =>
        if c.isDigit then
          let (ds, rest) := digits cs1
          some (ds, rest)
        else none
    | [] => none
  match intPart with
  | none => none
  | some (ds, cs2) =>
      let (fracDs, cs3) : List Char × List Char :=
        match cs2 with
        | '.' :: rest => let (fs, r) := digits rest; (fs, r)
        | _ => ([], cs2)
      let fracOk : Bool := match cs2 with
        | '.' :: _ => !fracDs.isEmpty
        | _ => true
      let hasFrac : Bool := match cs2 with
        | '.' :: _ => true
        | _ => false
      let (expDs, cs4, hasExp) : List Char × List Char × Bool :=
        match cs3 with
        | 'e' :: rest | 'E' :: rest =>
            match rest with
            | '+' :: r2 => let (es, r) := digits r2; (es, r, true)
            | '-' :: r2 => let (es, r) := digits r2; (es, r, true)
            | _ => let (es, r) := digits rest; (es, r, true)
        | _ => ([], cs3, false)
      if !fracOk then none
      else if hasExp && expDs.isEmpty then none
      else
        let consumed := cs.length - cs4.length
        let raw := String.mk (cs.take consumed)
        if hasFrac || hasExp then some (.float raw, cs4)
        else
          let mag : Int := ds.foldl (fun acc c => acc * 10 + (c.toNat - '0'.toNat : Int)) 0
          some (.int (if neg then -mag else mag), cs4)

/-- Parser modes for the JSON value parser: a fresh value, the remaining
items of an array after its first element, or the remaining members of an
object. -/
inductive JMode where
  | value
  | arrayRest (acc : List PyValue)
  | objRest (acc : List (String × PyValue))

/-- Fuel-indexed JSON parser core. -/
def jrun : Nat → JMode → List Char → Option (PyValue × List Char)
  | 0, _, _ => none
  | fuel + 1, .value, cs =>
      match skipWs cs with
      | 'n' :: 'u' :: 'l' :: 'l' :: rest => some (.null, rest)
      | 't' :: 'r' :: 'u' :: 'e' :: rest => some (.bool true, rest)
      | 'f' :: 'a' :: 'l' :: 's' :: 'e' :: rest => some (.bool false, rest)
      | '"' :: rest =>
          (jparseStringBody rest).map (fun (chars, rem) => (.str (String.mk chars), rem))
      | '[' :: rest =>
          (match skipWs rest with
           | ']' :: rem => some (.list [], rem)
           | _ => jrun fuel (.arrayRest []) rest)
      | '\x7b' :: rest =>
          (match skipWs rest with
           | '\x7d' :: rem => some (.dict [], rem)
           | _ => jrun fuel (.objRest []) rest)
      | other => jparseNumber other
  | fuel + 1, .arrayRest acc, cs =>
      match jrun fuel .value cs with
      | none => none
      | some (v, rest) =>
          match skipWs rest with
          | ',' :: rem => jrun fuel (.arrayRest (acc ++ [v])) rem
          | ']' :: rem => some (.list (acc ++ [v]), rem)
          | _ => none
  | fuel + 1, .objRest acc, cs =>
      match skipWs cs with
      | '"' :: rest =>
          match jparseStringBody rest with
          | none => none
          | some (keyChars, rest2) =>
              match skipWs rest2 with
              | ':' :: rest3 =>
                  match jrun fuel .value rest3 with
                  | none => none
                  | some (v, rest4) =>
                      let acc2 := dictInsert acc (String.mk keyChars) v
                      match skipWs rest4 with
                      | ',' :: rem => jrun fuel (.objRest acc2) rem
                      | '\x7d' :: rem => some (.dict acc2, rem)
                      | _ => none
              | _ => none
      | _ => none

/-- Models Python `json.loads`: parse one JSON value and require that only
whitespace remains.  `none` is a raised `json.JSONDecodeError`. -/
def jsonLoads (s : String) : Option PyValue :=
  match jrun (2 * s.length + 4) .value s.data with
  | some (v, rest) => if (skipWs rest).isEmpty then some v else none
  | none => none

/-! ### Primitive converters (`pyathena/converter.py`)

Each `_to_*` function embeds the converter of the same name.  A Python
`None` argument is `Option.none`; a raised exception is `Except.error`.
The date/time, decimal, float and binary converters are carried
symbolically (their payload is the input string): their internal parsing
(`datetime.strptime`, `float`, `Decimal`, `binascii`) is outside the scope
of the claims, and no theorem in this file depends on their results. -/

def _to_default (varchar_value : Option String) : Except PyErr PyValue :=
  match varchar_value with
  | none => .ok .null
  | some s => .ok (.str s)

def _to_int (varchar_value : Option String) : Except PyErr PyValue :=
  match varchar_value with
  | none => .ok .null
  | some s =>
      match pyIntOfString s with
      | some n => .ok (.int n)
      | none => .error .valueError

/-- `float(value)` is carried symbolically (validation not modelled). -/
def _to_float (varchar_value : Option String) : Except PyErr PyValue :=
  match varchar_value with
  | none => .ok .null
  | some s => .ok (.float s)

/-- `Decimal(value)`; note the falsy check: the empty string also maps to
`None`.  The decimal payload is carried symbolically. -/
def _to_decimal (varchar_value : Option String) : Except PyErr PyValue :=
  match varchar_value with
  | none => .ok .null
  | some s => if s = "" then .ok .null else .ok (.symbolic "decimal" s)

/-- Models `distutils`-style `strtobool` from `pyathena/util.py`.
Modelled from the spec: `pyathena/util.py` is not among the provided
sources; the spec's primitive table names a direct string→boolean
conversion, and `strtobool` is the standard implementation the code
imports: y/yes/t/true/on/1 ↦ 1, n/no/f/false/off/0 ↦ 0, else ValueError. -/
def strtobool (s : String) : Except PyErr Int :=
  let v := pyToLower s
  if v = "y" ∨ v = "yes" ∨ v = "t" ∨ v = "true" ∨ v = "on" ∨ v = "1" then .ok 1
  else if v = "n" ∨ v = "no" ∨ v = "f" ∨ v = "false" ∨ v = "off" ∨ v = "0" then .ok 0
  else .error .valueError

def _to_boolean (varchar_value : Option String) : Except PyErr PyValue :=
  match varchar_value with
  | none => .ok .null
  | some s =>
      if s = "" then .ok .null
      else (strtobool s).map (fun n => .bool (n ≠ 0))

/-- `binascii.a2b_hex` of the space-stripped input, carried symbolically. -/
def _to_binary (varchar_value : Option String) : Except PyErr PyValue :=
  match varchar_value with
  | none => .ok .null
  | some s => .ok (.symbolic "varbinary" s)

/-- The date/time converters parse fixed `strptime` formats; the result is
carried symbolically and the format check is not modelled. -/
def _to_date (varchar_value : Option String) : Except PyErr PyValue :=
  match varchar_value with
  | none => .ok .null
  | some s => .ok (.symbolic "date" s)

def _to_datetime (varchar_value : Option String) : Except PyErr PyValue :=
  match varchar_value with
  | none => .ok .null
  | some s => .ok (.symbolic "timestamp" s)

def _to_datetime_with_tz (varchar_value : Option String) : Except PyErr PyValue :=
  match varchar_value with
  | none => .ok .null
  | some s => .ok (.symbolic "timestamp with time zone" s)

def _to_time (varchar_value : Option String) : Except PyErr PyValue :=
  match varchar_value with
  | none => .ok .null
  | some s => .ok (.symbolic "time" s)

/-- `json.loads(value)`; a decode failure propagates (JSONDecodeError is a
ValueError subclass). -/
def _to_json (varchar_value : Option String) : Except PyErr PyValue :=
  match varchar_value with
  | none => .ok .null
  | some s =>
      match jsonLoads s with
      | some v => .ok v
      | none => .error .valueError

/-- `_convert_value`: no type inference — `null` (case-insensitive) becomes
`None`, everything else stays a string. -/
def _convert_value (value : String) : PyValue :=
  if pyToLower value = "null" then .null else .str value

/-- Worker for `_split_array_items`: split at top-level commas while
tracking brace and bracket depth. -/
def splitArrayItemsGo : List Char → String → Int → Int → List String → List String
  | [], cur, _, _, items =>
      if pyTrim cur ≠ "" then items ++ [pyTrim cur] else items
  | c :: cs, cur, braceDepth, bracketDepth, items =>
      if c = '\x7b' then splitArrayItemsGo cs (cur.push c) (braceDepth + 1) bracketDepth items
      else if c = '\x7d' then splitArrayItemsGo cs (cur.push c) (braceDepth - 1) bracketDepth items
      else if c = '[' then splitArrayItemsGo cs (cur.push c) braceDepth (bracketDepth + 1) items
      else if c = ']' then splitArrayItemsGo cs (cur.push c) braceDepth (bracketDepth - 1) items
      else if c = ',' ∧ braceDepth = 0 ∧ bracketDepth = 0 then
        splitArrayItemsGo cs "" braceDepth bracketDepth (items ++ [pyTrim cur])
      else splitArrayItemsGo cs (cur.push c) braceDepth bracketDepth items

/-- `_split_array_items` (converter.py): split array items by comma,
respecting brace and bracket groupings. -/
def _split_array_items (inner : String) : List String :=
  splitArrayItemsGo inner.data "" 0 0 []

/-- `pair.split("=", 1)`: split at the first `=` (caller guarantees one is
present; if none, the whole string is returned as the key part). -/
def splitEqOnce (s : String) : String × String :=
  match s.data.findIdx? (· = '=') with
  | some i => (String.mk (s.data.take i), String.mk (s.data.drop (i + 1)))
  | none => (s, "")

/-! ### Untyped complex converters (`_to_array` / `_to_map` / `_to_struct`)

These functions are mutually recursive through nested native-format
structs, so they are embedded as a single fuel-indexed interpreter `uRun`
over a call tag.  `uRun` returning `Option.none` means the fuel ran out
(see the file header); a Python `None` result is `some PyValue.null`. -/

inductive UCall where
  | toArray (s : String)
  | arrayItems (items : List String) (acc : List PyValue)
  | toMap (s : String)
  | toStruct (s : String)
  | namedPairs (pairs : List String) (acc : List (String × PyValue))

/-- `{key}` / quote detection used by `_to_map` and `_to_struct`:
`value[1:10] if len(value) > 10 else value[1:-1]`. -/
def innerPreview (s : String) : String :=
  if s.length > 10 then (s.drop 1).take 9 else (s.drop 1).dropRight 1

/-- Characters that make `_parse_array_native` skip an item. -/
def hasArrayItemSpecialChar (item : String) : Bool :=
  pyContains item '[' || pyContains item ']' || pyContains item '=' || pyContains item '"'

/-- Characters that make `_parse_map_native` / `_parse_named_struct` skip a
key or value. -/
def hasMapSpecialChar (s : String) : Bool :=
  pyContains s '\x7b' || pyContains s '\x7d' || pyContains s '=' || pyContains s '"'

/-- `_parse_map_native`: `key=value` pairs split at every comma. -/
def parseMapNative (inner : String) : PyValue :=
  let pairs := (pySplitOnChar inner ',').map pyTrim
  let step : List (String × PyValue) → String → List (String × PyValue) := fun acc pair =>
    if !pyContains pair '=' then acc
    else
      let kv := splitEqOnce pair
      let key := pyTrim kv.1
      let value := pyTrim kv.2
      if hasMapSpecialChar key || hasMapSpecialChar value then acc
      else dictInsert acc (pyStr (_convert_value key)) (_convert_value value)
  let result := pairs.foldl step []
  if result.isEmpty then .null else .dict result

/-- `_parse_unnamed_struct`: positional values keyed by their index. -/
def parseUnnamedStruct (inner : String) : PyValue :=
  let values := (pySplitOnChar inner ',').map pyTrim
  .dict ((values.enum.map (fun p => (toString p.1, _convert_value p.2))))

/-- Fuel-indexed interpreter for the untyped complex converters.  Each
branch transcribes the function of the corresponding name in
`pyathena/converter.py`. -/
def uRun : Nat → UCall → Option PyValue
  | 0, _ => none
  | fuel + 1, .toArray s =>
      if !(pyStartsWith s "[" && pyEndsWith s "]") then some .null
      else
        match jsonLoads s with
        | some (.list xs) => some (.list xs)
        | _ =>
          let inner := pyTrim ((s.drop 1).dropRight 1)
          if inner = "" then some (.list [])
          else if pyContains inner '[' then some .null
          else uRun fuel (.arrayItems (_split_array_items inner) [])
  | _ + 1, .arrayItems [] acc =>
      -- `_parse_array_native` ends with `return result if result else None`.
      if acc.isEmpty then some .null else some (.list acc)
  | fuel + 1, .arrayItems (item :: rest) acc =>
      if item = "" then uRun fuel (.arrayItems rest acc)
      else if pyStartsWith (pyTrim item) "\x7b" && pyEndsWith (pyTrim item) "\x7d" then
        match uRun fuel (.toStruct (pyTrim item)) with
        | none => none
        | some .null => uRun fuel (.arrayItems rest acc)
        | some v => uRun fuel (.arrayItems rest (acc ++ [v]))
      else if hasArrayItemSpecialChar item then uRun fuel (.arrayItems rest acc)
      else uRun fuel (.arrayItems rest (acc ++ [_convert_value item]))
  | _ + 1, .toMap s =>
      if !(pyStartsWith s "\x7b" && pyEndsWith s "\x7d") then some .null
      else
        let jsonResult : Option (Option PyValue) :=
          if pyContains (innerPreview s) '"' || pyStartsWith s "\x7b\"" then
            match jsonLoads s with
            | some (.dict kvs) => some (some (.dict kvs))
            | some _ => some (some .null)
            | none => none
          else none
        match jsonResult with
        | some r => r
        | none =>
          let inner := pyTrim ((s.drop 1).dropRight 1)
          if inner = "" then some (.dict [])
          else if pyContains inner '(' || pyContains inner ')' ||
              pyContains inner '[' || pyContains inner ']' then some .null
          else
            -- `_parse_map_native` cannot recurse; fuel is not consumed.
            some (parseMapNative inner)
  | fuel + 1, .toStruct s =>
      if !(pyStartsWith s "\x7b" && pyEndsWith s "\x7d") then some .null
      else
        let jsonResult : Option (Option PyValue) :=
          if pyContains (innerPreview s) '"' || pyStartsWith s "\x7b\"" then
            match jsonLoads s with
            | some (.dict kvs) => some (some (.dict kvs))
            | some _ => some (some .null)
            | none => none
          else none
        match jsonResult with
        | some r => r
        | none =>
          let inner := pyTrim ((s.drop 1).dropRight 1)
          if inner = "" then some (.dict [])
          else if pyContains inner '=' then uRun fuel (.namedPairs (_split_array_items inner) [])
          else some (parseUnnamedStruct inner)
  | _ + 1, .namedPairs [] acc =>
      -- `_parse_named_struct` ends with `return result if result else None`.
      if acc.isEmpty then some .null else some (.dict acc)
  | fuel + 1, .namedPairs (pair :: rest) acc =>
      if !pyContains pair '=' then uRun fuel (.namedPairs rest acc)
      else
        let kv := splitEqOnce pair
        let key := pyTrim kv.1
        let value := pyTrim kv.2
        if hasMapSpecialChar key then uRun fuel (.namedPairs rest acc)
        else if pyStartsWith value "\x7b" && pyEndsWith value "\x7d" then
          match uRun fuel (.toStruct value) with
          | none => none
          | some .null => uRun fuel (.namedPairs rest (dictInsert acc key (_convert_value value)))
          | some v => uRun fuel (.namedPairs rest (dictInsert acc key v))
        else uRun fuel (.namedPairs rest (dictInsert acc key (_convert_value value)))

/-- Fuel bound for the string-consuming converters; far larger than the
recursion depth reachable from the given input (see file header). -/
def uFuel (s : String) : Nat := 8 * s.length + 256

def _to_array (varchar_value : Option String) : Except PyErr PyValue :=
  match varchar_value with
  | none => .ok .null
  | some s =>
      match uRun (uFuel s) (.toArray s) with
      | some v => .ok v
      | none => .error .recursionError

def _to_map (varchar_value : Option String) : Except PyErr PyValue :=
  match varchar_value with
  | none => .ok .null
  | some s =>
      match uRun (uFuel s) (.toMap s) with
      | some v => .ok v
      | none => .error .recursionError

def _to_struct (varchar_value : Option String) : Except PyErr PyValue :=
  match varchar_value with
  | none => .ok .null
  | some s =>
      match uRun (uFuel s) (.toStruct s) with
      | some v => .ok v
      | none => .error .recursionError

/-! ### Type-signature trees and `parse_type_signature` (`pyathena/converter.py`) -/

/-- Parsed representation of an Athena DDL type signature
(`converter.py`'s `TypeNode` dataclass; `parser.py` re-declares an
identical one, plus a cached name→type map whose observable behaviour is
embedded in `getFieldTypeByName` below). -/
inductive TypeNode where
  | mk (type_name : String) (children : List TypeNode) (field_names : Option (List String))

def TypeNode.type_name : TypeNode → String
  | .mk n _ _ => n

def TypeNode.children : TypeNode → List TypeNode
  | .mk _ c _ => c

def TypeNode.field_names : TypeNode → Option (List String)
  | .mk _ _ f => f

/-- `TypeNode("varchar")` — the default node used throughout conversion. -/
def TypeNode.varchar : TypeNode := .mk "varchar" [] none

/-- `_split_top_level` worker: split by a delimiter, respecting nested
parentheses. -/
def splitTopLevelGo (delim : Char) : List Char → String → Int → List String → List String
  | [], cur, _, parts => if cur ≠ "" then parts ++ [pyTrim cur] else parts
  | c :: cs, cur, depth, parts =>
      if c = '(' then splitTopLevelGo delim cs (cur.push c) (depth + 1) parts
      else if c = ')' then splitTopLevelGo delim cs (cur.push c) (depth - 1) parts
      else if c = delim ∧ depth = 0 then splitTopLevelGo delim cs "" depth (parts ++ [pyTrim cur])
      else splitTopLevelGo delim cs (cur.push c) depth parts

/-- `_split_top_level(s, delimiter=",")`. -/
def _split_top_level (s : String) (delim : Char := ',') : List String :=
  splitTopLevelGo delim s.data "" 0 []

/-- `_find_field_name_boundary`: index of the first top-level space in a
row-field definition, or `none` (Python `-1`). -/
def _find_field_name_boundary (part : String) : Option Nat :=
  let rec go : List Char → Int → Nat → Option Nat
    | [], _, _ => none
    | c :: cs, depth, i =>
        if c = '(' then go cs (depth + 1) (i + 1)
        else if c = ')' then go cs (depth - 1) (i + 1)
        else if c = ' ' ∧ depth = 0 then some i
        else go cs depth (i + 1)
  go part.data 0 0

/-- Index of the first `(` in the string, or `none` (Python
`type_str.find("(") == -1`). -/
def findParenIdx (s : String) : Option Nat :=
  s.data.findIdx? (· = '(')

/-- Fuel-indexed core of `parse_type_signature` (converter.py).  The list
arguments carry the pending row/struct parts so that the recursion is
structural in the fuel. -/
def parseTypeSigF : Nat → String → TypeNode
  | 0, s => .mk (pyToLower (pyTrim s)) [] none
  | fuel + 1, type_str =>
      let type_str := pyTrim type_str
      match findParenIdx type_str with
      | none => .mk (pyToLower type_str) [] none
      | some paren_idx =>
          let type_name := pyToLower (pyTrim (type_str.take paren_idx))
          let inner := pyTrim ((type_str.drop (paren_idx + 1)).dropRight 1)
          if type_name = "row" ∨ type_name = "struct" then
            let parts := _split_top_level inner
            let fields := parts.map fun part =>
              let part := pyTrim part
              match _find_field_name_boundary part with
              | none => (part, parseTypeSigF fuel part)
              | some space_idx =>
                  (pyTrim (part.take space_idx),
                   parseTypeSigF fuel (pyTrim ((part.drop (space_idx + 1)))))
            .mk type_name (fields.map Prod.snd) (some (fields.map Prod.fst))
          else if type_name = "array" then
            .mk type_name [parseTypeSigF fuel inner] none
          else if type_name = "map" then
            match _split_top_level inner with
            | [p1, p2] => .mk type_name [parseTypeSigF fuel p1, parseTypeSigF fuel p2] none
            | _ => .mk type_name [] none
          else
            -- Types with parameters like decimal(10, 2), varchar(255).
            .mk type_name [] none

/-- `parse_type_signature(type_str)` — parse an Athena DDL type signature
into a `TypeNode` tree. -/
def parse_type_signature (type_str : String) : TypeNode :=
  parseTypeSigF (type_str.length + 2) type_str

/-! ### Typed conversion (`_convert_value_with_type` and friends)

`_convert_value_with_type`, `_convert_element`, `_convert_typed_array`,
`_convert_typed_map` and `_convert_typed_struct` are mutually recursive;
they are embedded as the fuel-indexed interpreter `convRun` over a call
tag, with `PyErr.recursionError` on fuel exhaustion. -/

/-- The `_DEFAULT_CONVERTERS` table of `pyathena/converter.py`. -/
def _DEFAULT_CONVERTERS : List (String × (Option String → Except PyErr PyValue)) :=
  [("boolean", _to_boolean),
   ("tinyint", _to_int),
   ("smallint", _to_int),
   ("integer", _to_int),
   ("bigint", _to_int),
   ("float", _to_float),
   ("real", _to_float),
   ("double", _to_float),
   ("char", _to_default),
   ("varchar", _to_default),
   ("string", _to_default),
   ("timestamp", _to_datetime),
   ("timestamp with time zone", _to_datetime_with_tz),
   ("date", _to_date),
   ("time", _to_time),
   ("varbinary", _to_binary),
   ("array", _to_array),
   ("map", _to_map),
   ("row", _to_struct),
   ("decimal", _to_decimal),
   ("json", _to_json)]

/-- `_DEFAULT_CONVERTERS.get(name, _to_default)` — also the behaviour of
`Converter.get` for a fresh `DefaultTypeConverter` (whose mappings are a
deep copy of the table and whose default is `_to_default`). -/
def defaultConvertersGet (name : String) : Option String → Except PyErr PyValue :=
  match _DEFAULT_CONVERTERS.find? (fun p => p.1 = name) with
  | some p => p.2
  | none => _to_default

/-- `_get_field_type(field_name, field_names, field_types, field_index)`
(converter.py): name lookup first, then positional index, then varchar. -/
def _get_field_type (field_name : String) (field_names : List String)
    (field_types : List TypeNode) (field_index : Nat) : TypeNode :=
  match field_names.indexOf? field_name with
  | some idx =>
      if h : idx < field_types.length then field_types.get ⟨idx, h⟩
      else if h2 : field_index < field_types.length then field_types.get ⟨field_index, h2⟩
      else TypeNode.varchar
  | none =>
      if h2 : field_index < field_types.length then field_types.get ⟨field_index, h2⟩
      else TypeNode.varchar

/-- Call tags for the typed-conversion interpreter.  The list-carrying
tags embed the `for` loops of the corresponding Python functions. -/
inductive TCall where
  | value (v : String) (t : TypeNode)
  | element (v : String) (t : TypeNode)
  | array (v : String) (t : TypeNode)
  | jsonArrayElems (elems : List PyValue) (elemType : TypeNode) (acc : List PyValue)
  | arrayItems (items : List String) (elemType : TypeNode) (acc : List PyValue)
  | mapCall (v : String) (t : TypeNode)
  | jsonMapPairs (pairs : List (String × PyValue)) (keyType valueType : TypeNode)
      (acc : List (String × PyValue))
  | mapPairs (pairs : List String) (keyType valueType : TypeNode)
      (acc : List (String × PyValue))
  | strct (v : String) (t : TypeNode)
  | jsonStructFields (pairs : List (String × PyValue)) (fieldTypes : List TypeNode)
      (i : Nat) (acc : List (String × PyValue))
  | structPairs (pairs : List String) (fieldNames : List String)
      (fieldTypes : List TypeNode) (fieldIndex : Nat) (acc : List (String × PyValue))
  | unnamedVals (vals : List String) (fieldNames : List String)
      (fieldTypes : List TypeNode) (i : Nat) (acc : List (String × PyValue))

/-- Fuel-indexed interpreter for the typed converters of
`pyathena/converter.py` (lines 549–797).  Each tag transcribes the body of
the function named in its comment. -/
def convRun : Nat → TCall → Except PyErr PyValue
  | 0, _ => .error .recursionError
  -- `_convert_value_with_type(value, type_node)`
  | fuel + 1, .value v t =>
      if t.type_name = "array" then convRun fuel (.array v t)
      else if t.type_name = "map" then convRun fuel (.mapCall v t)
      else if t.type_name = "row" ∨ t.type_name = "struct" then convRun fuel (.strct v t)
      else (defaultConvertersGet t.type_name) (some v)
  -- `_convert_element(value, type_node)`
  | fuel + 1, .element v t =>
      if pyToLower v = "null" then .ok .null
      else convRun fuel (.value v t)
  -- `_convert_typed_array(value, type_node)`
  | fuel + 1, .array v t =>
      if !(pyStartsWith v "[" && pyEndsWith v "]") then .ok .null
      else
        let element_type := t.children.headD TypeNode.varchar
        match jsonLoads v with
        | some (.list xs) => convRun fuel (.jsonArrayElems xs element_type [])
        | _ =>
          let inner := pyTrim ((v.drop 1).dropRight 1)
          if inner = "" then .ok (.list [])
          else if pyContains inner '[' then .ok .null
          else convRun fuel (.arrayItems (_split_array_items inner) element_type [])
  | _ + 1, .jsonArrayElems [] _ acc => .ok (.list acc)
  | fuel + 1, .jsonArrayElems (e :: rest) elemType acc =>
      match e with
      | .null => convRun fuel (.jsonArrayElems rest elemType (acc ++ [.null]))
      | _ =>
          match convRun fuel (.element (pyStr e) elemType) with
          | .error err => .error err
          | .ok v2 => convRun fuel (.jsonArrayElems rest elemType (acc ++ [v2]))
  | _ + 1, .arrayItems [] _ acc =>
      if acc.isEmpty then .ok .null else .ok (.list acc)
  | fuel + 1, .arrayItems (item :: rest) elemType acc =>
      let item := pyTrim item
      if item = "" then convRun fuel (.arrayItems rest elemType acc)
      else if pyStartsWith item "\x7b" && pyEndsWith item "\x7d" then
        let sub : Except PyErr PyValue :=
          if elemType.type_name = "row" ∨ elemType.type_name = "struct" then
            convRun fuel (.strct item elemType)
          else if elemType.type_name = "map" then
            convRun fuel (.mapCall item elemType)
          else _to_struct (some item)
        match sub with
        | .error err => .error err
        | .ok v2 => convRun fuel (.arrayItems rest elemType (acc ++ [v2]))
      else
        match convRun fuel (.element item elemType) with
        | .error err => .error err
        | .ok v2 => convRun fuel (.arrayItems rest elemType (acc ++ [v2]))
  -- `_convert_typed_map(value, type_node)`
  | fuel + 1, .mapCall v t =>
      if !(pyStartsWith v "\x7b" && pyEndsWith v "\x7d") then .ok .null
      else
        let key_type := t.children.headD TypeNode.varchar
        let value_type := (t.children.drop 1).headD TypeNode.varchar
        let jsonAttempt : Option (List (String × PyValue)) :=
          if pyContains (innerPreview v) '"' || pyStartsWith v "\x7b\"" then
            match jsonLoads v with
            | some (.dict kvs) => some kvs
            | _ => none
          else none
        match jsonAttempt with
        | some kvs => convRun fuel (.jsonMapPairs kvs key_type value_type [])
        | none =>
          let inner := pyTrim ((v.drop 1).dropRight 1)
          if inner = "" then .ok (.dict [])
          else if pyContains inner '(' || pyContains inner ')' ||
              pyContains inner '[' || pyContains inner ']' then .ok .null
          else
            convRun fuel (.mapPairs ((pySplitOnChar inner ',').map pyTrim) key_type value_type [])
  | _ + 1, .jsonMapPairs [] _ _ acc => .ok (.dict acc)
  | fuel + 1, .jsonMapPairs ((k, v) :: rest) keyType valueType acc =>
      -- JSON object keys are always strings, so `k is not None` always holds.
      match convRun fuel (.element (pyStr (.str k)) keyType) with
      | .error err => .error err
      | .ok keyConv =>
          let valConv : Except PyErr PyValue :=
            match v with
            | .null => .ok .null
            | _ => convRun fuel (.element (pyStr v) valueType)
          match valConv with
          | .error err => .error err
          | .ok v2 => convRun fuel (.jsonMapPairs rest keyType valueType
              (dictInsert acc (pyStr keyConv) v2))
  | _ + 1, .mapPairs [] _ _ acc =>
      if acc.isEmpty then .ok .null else .ok (.dict acc)
  | fuel + 1, .mapPairs (pair :: rest) keyType valueType acc =>
      if !pyContains pair '=' then convRun fuel (.mapPairs rest keyType valueType acc)
      else
        let kv := splitEqOnce pair
        let k := pyTrim kv.1
        let v := pyTrim kv.2
        if hasMapSpecialChar k || hasMapSpecialChar v then
          convRun fuel (.mapPairs rest keyType valueType acc)
        else
          match convRun fuel (.element k keyType) with
          | .error err => .error err
          | .ok keyConv =>
              match convRun fuel (.element v valueType) with
              | .error err => .error err
              | .ok valConv => convRun fuel (.mapPairs rest keyType valueType
                  (dictInsert acc (pyStr keyConv) valConv))
  -- `_convert_typed_struct(value, type_node)`
  | fuel + 1, .strct v t =>
      if !(pyStartsWith v "\x7b" && pyEndsWith v "\x7d") then .ok .null
      else
        let field_names := t.field_names.getD []
        let field_types := t.children
        let jsonAttempt : Option (List (String × PyValue)) :=
          if pyContains (innerPreview v) '"' || pyStartsWith v "\x7b\"" then
            match jsonLoads v with
            | some (.dict kvs) => some kvs
            | _ => none
          else none
        match jsonAttempt with
        | some kvs => convRun fuel (.jsonStructFields kvs field_types 0 [])
        | none =>
          let inner := pyTrim ((v.drop 1).dropRight 1)
          if inner = "" then .ok (.dict [])
          else if pyContains inner '=' then
            convRun fuel (.structPairs (_split_array_items inner) field_names field_types 0 [])
          else
            convRun fuel (.unnamedVals ((pySplitOnChar inner ',').map pyTrim)
              field_names field_types 0 [])
  | _ + 1, .jsonStructFields [] _ _ acc => .ok (.dict acc)
  | fuel + 1, .jsonStructFields ((k, v) :: rest) fieldTypes i acc =>
      let ft := if h : i < fieldTypes.length then fieldTypes.get ⟨i, h⟩ else TypeNode.varchar
      let valConv : Except PyErr PyValue :=
        match v with
        | .null => .ok .null
        | _ => convRun fuel (.element (pyStr v) ft)
      match valConv with
      | .error err => .error err
      | .ok v2 => convRun fuel (.jsonStructFields rest fieldTypes (i + 1)
          (dictInsert acc k v2))
  | _ + 1, .structPairs [] _ _ _ acc =>
      if acc.isEmpty then .ok .null else .ok (.dict acc)
  | fuel + 1, .structPairs (pair :: rest) fieldNames fieldTypes fieldIndex acc =>
      if !pyContains pair '=' then
        convRun fuel (.structPairs rest fieldNames fieldTypes fieldIndex acc)
      else
        let kv := splitEqOnce pair
        let k := pyTrim kv.1
        let v := pyTrim kv.2
        if hasMapSpecialChar k then
          convRun fuel (.structPairs rest fieldNames fieldTypes fieldIndex acc)
        else
          let ft := _get_field_type k fieldNames fieldTypes fieldIndex
          let sub : Except PyErr PyValue :=
            if pyStartsWith v "\x7b" && pyEndsWith v "\x7d" then
              if ft.type_name = "row" ∨ ft.type_name = "struct" then
                convRun fuel (.strct v ft)
              else if ft.type_name = "map" then
                convRun fuel (.mapCall v ft)
              else _to_struct (some v)
            else convRun fuel (.element v ft)
          match sub with
          | .error err => .error err
          | .ok v2 => convRun fuel (.structPairs rest fieldNames fieldTypes (fieldIndex + 1)
              (dictInsert acc k v2))
  | _ + 1, .unnamedVals [] _ _ _ acc => .ok (.dict acc)
  | fuel + 1, .unnamedVals (v :: rest) fieldNames fieldTypes i acc =>
      let ft := if h : i < fieldTypes.length then fieldTypes.get ⟨i, h⟩ else TypeNode.varchar
      let name := if h : i < fieldNames.length then fieldNames.get ⟨i, h⟩ else toString i
      match convRun fuel (.element v ft) with
      | .error err => .error err
      | .ok v2 => convRun fuel (.unnamedVals rest fieldNames fieldTypes (i + 1)
          (dictInsert acc name v2))

/-- Fuel passed to `convRun` by the public wrappers; far larger than the
recursion depth reachable from the given value string. -/
def convFuel (v : String) : Nat := 8 * v.length + 256

/-- `_convert_value_with_type(value, type_node)` — public entry point of
the typed conversion. -/
def _convert_value_with_type (value : String) (type_node : TypeNode) : Except PyErr PyValue :=
  convRun (convFuel value) (.value value type_node)

/-- `DefaultTypeConverter.convert(type_, value, type_hint)`: `None` cells
stay `None`; a truthy type hint routes through the typed conversion of the
parsed hint (`_get_or_parse_hint` only memoizes `parse_type_signature`, so
it is embedded as the parse itself); otherwise the mapped primitive
converter for `type_` runs. -/
def DefaultTypeConverter.convert (type_ : String) (value : Option String)
    (type_hint : Option String := none) : Except PyErr PyValue :=
  match value with
  | none => .ok .null
  | some v =>
      match type_hint with
      | some h =>
          if h = "" then (defaultConvertersGet type_) (some v)
          else _convert_value_with_type v (parse_type_signature h)
      | none => (defaultConvertersGet type_) (some v)

/-! ### `pyathena/parser.py`: `TypeSignatureParser` and Hive-dialect helpers

`parser.py` declares its own `TypeNode` (same shape as converter.py's plus
a cached name→type map); the embedding reuses the `TypeNode` type above.
`parseSig` embeds `TypeSignatureParser.parse`; `_normalize_hive` embeds
the module-level helper `_normalize_hive_syntax` (q.v.), which — in the
source — is defined but called by no one. -/

/-- `_TYPE_ALIASES` (parser.py): aliases for Athena type names that differ
between Hive DDL and Trino DDL. -/
def _TYPE_ALIASES : List (String × String) := [("int", "integer")]

def typeAliasGet (name : String) : String :=
  match _TYPE_ALIASES.find? (fun p => p.1 = name) with
  | some p => p.2
  | none => name

/-- The per-character replacement performed by `_HIVE_SYNTAX_RE.sub` with
`_HIVE_REPLACEMENTS`: `<` ↦ `(`, `>` ↦ `)`, `:` ↦ space. -/
def hiveReplaceChar (c : Char) : Char :=
  if c = '<' then '(' else if c = '>' then ')' else if c = ':' then ' ' else c

/-- Embeds `_normalize_hive_syntax` (parser.py lines 20–34): normalise
Hive-style angle-bracket DDL to Trino-style parenthesised DDL.  The regex
substitution of the three matched characters is the character map
`hiveReplaceChar`; strings containing no `<` are returned unchanged. -/
def _normalize_hive (type_str : String) : String :=
  if !pyContains type_str '<' then type_str else String.mk (type_str.data.map hiveReplaceChar)

/-- `TypeSignatureParser._find_matching_paren` worker. -/
def findMatchingParenGo : List Char → Int → Nat → Option Nat
  | [], _, _ => none
  | c :: cs, depth, i =>
      if c = '(' then findMatchingParenGo cs (depth + 1) (i + 1)
      else if c = ')' then
        (if depth - 1 = 0 then some i else findMatchingParenGo cs (depth - 1) (i + 1))
      else findMatchingParenGo cs depth (i + 1)

/-- `TypeSignatureParser._find_matching_paren(s, open_idx)`: index of the
closing parenthesis matching the one at `open_idx` (falls back to
`len(s) - 1`). -/
def findMatchingParen (s : String) (openIdx : Nat) : Nat :=
  (findMatchingParenGo (s.data.drop openIdx) 0 openIdx).getD (s.length - 1)

/-- Fuel-indexed core of `TypeSignatureParser.parse` (parser.py lines
111–166).  `_split_type_args` has the same body as converter.py's
`_split_top_level`, which is reused here. -/
def parseSigF : Nat → String → TypeNode
  | 0, s => .mk (pyToLower (pyTrim s)) [] none
  | fuel + 1, type_str =>
      let type_str := pyTrim type_str
      match findParenIdx type_str with
      | none =>
          let name := pyToLower type_str
          .mk (typeAliasGet name) [] none
      | some paren_idx =>
          let type_name := typeAliasGet (pyToLower (pyTrim (type_str.take paren_idx)))
          let close_idx := findMatchingParen type_str paren_idx
          let inner := pyTrim ((type_str.take close_idx).drop (paren_idx + 1))
          if type_name = "row" ∨ type_name = "struct" then
            let parts := _split_top_level inner
            let fields := parts.map fun part =>
              let part := pyTrim part
              match _find_field_name_boundary part with
              | none => (part, parseSigF fuel part)
              | some space_idx =>
                  (pyTrim (part.take space_idx),
                   parseSigF fuel (pyTrim ((part.drop (space_idx + 1)))))
            .mk type_name (fields.map Prod.snd) (some (fields.map Prod.fst))
          else if type_name = "array" then
            .mk type_name [parseSigF fuel inner] none
          else if type_name = "map" then
            match _split_top_level inner with
            | [p1, p2] => .mk type_name [parseSigF fuel p1, parseSigF fuel p2] none
            | _ => .mk type_name [] none
          else
            .mk type_name [] none

/-- `TypeSignatureParser().parse(type_str)`. -/
def parseSig (type_str : String) : TypeNode :=
  parseSigF (type_str.length + 2) type_str

/-! ### Query-execution snapshots (`pyathena/model.py`)

Modelled from the spec: `pyathena/model.py` (the `AthenaQueryExecution`
response wrapper with its `STATE_*` / `STATEMENT_TYPE_*` constants) is not
among the provided sources.  Spec §3 fixes the data model: a snapshot has
an id, raw query text, a state drawn from QUEUED / RUNNING / SUCCEEDED /
FAILED / CANCELLED, statement-type metadata, and timing fields including a
completion timestamp.  Timestamps are embedded as integers (comparison is
all the code under test does with them). -/

inductive QState where
  | queued | running | succeeded | failed | cancelled
  deriving DecidableEq, Repr

inductive StatementType where
  | ddl | dml | utility
  deriving DecidableEq, Repr

structure AthenaQueryExecution where
  query_id : String
  query : String
  state : QState
  statement_type : StatementType
  substatement_type : String
  /-- Completion timestamp.  The listing code first compares these as sort
  keys and then against the expiration boundary; a snapshot with no
  completion time would make Python's `sorted` raise (`datetime` vs
  `None`), which the surrounding `except` turns into a `None` result, so
  only snapshots carrying a completion time are modelled.  A present
  `datetime` is always truthy, so the code's truthiness test on this field
  is always true here. -/
  completion_date_time : Int
  deriving DecidableEq, Repr

/-- `query_execution.state in [STATE_SUCCEEDED, STATE_FAILED,
STATE_CANCELLED]` — the terminal-state test of `BaseCursor.__poll`. -/
def isTerminalState (s : QState) : Bool :=
  s = QState.succeeded || s = QState.failed || s = QState.cancelled

/-! ### `BaseCursor.__poll` (`pyathena/common.py` lines 558–567)

The loop issues exactly one `_get_query_execution` call per iteration and
returns the first terminal snapshot, sleeping `poll_interval` between
iterations (the sleep has no bearing on the call count and is not
modelled).  The remote is modelled as the stream of snapshots successive
calls would return; the result pairs the returned snapshot with the
number of get-execution calls made. -/

def pollLoop : List AthenaQueryExecution → Option (AthenaQueryExecution × Nat)
  | [] => none
  | e :: rest =>
      if isTerminalState e.state then some (e, 1)
      else (pollLoop rest).map (fun p => (p.1, p.2 + 1))

/-! ### `BaseCursor._find_previous_query_id` (`pyathena/common.py` lines 581–629)

The remote pagination (`_list_query_executions` / repeated
`batch_get_query_execution`) is modelled as the list of pages successive
calls would return; the response's `NextToken` is present exactly while
further pages remain.  The `work_group` argument only shapes the remote
request and is not modelled.  The `try/except` that downgrades remote
failures to a `None` result corresponds to the empty-pages case below.
The requested `max_results` bounds what the service may return; the page
contents here are environment data and are not re-truncated. -/

/-- `sys.maxsize` on a 64-bit CPython build. -/
def sysMaxsize : Int := 2 ^ 63 - 1

/-- `LIST_QUERY_EXECUTIONS_MAX_RESULTS`. -/
def LIST_QUERY_EXECUTIONS_MAX_RESULTS : Int := 50

/-- The generator filter inside the `sorted(...)` call: `SUCCEEDED` state
and DML statement type. -/
def filterCandidates (page : List AthenaQueryExecution) : List AthenaQueryExecution :=
  page.filter (fun e =>
    e.state = QState.succeeded && e.statement_type = StatementType.dml)

/-- `sorted(..., key=lambda e: e.completion_date_time, reverse=True)`:
Python's stable sort in descending key order (insertion sort is stable, and
the comparison places `a` before `b` iff `key b ≤ key a`, so ties keep
their original order exactly as in CPython). -/
def sortCandidatesDesc (l : List AthenaQueryExecution) : List AthenaQueryExecution :=
  l.insertionSort (fun a b => b.completion_date_time ≤ a.completion_date_time)

inductive ScanOutcome where
  | found (query_id : String)
  | expiredStop
  | noMatch
  deriving DecidableEq, Repr

/-- The inner `for execution in sorted(...)` loop: stop at the first
candidate older than the expiration boundary (which also clears the
pagination token), otherwise return the first exact query-text match. -/
def scanCandidates (query : String) (cache_expiration_time : Int)
    (expiration_time : Int) : List AthenaQueryExecution → ScanOutcome
  | [] => .noMatch
  | e :: rest =>
      if cache_expiration_time > 0 ∧ e.completion_date_time < expiration_time then
        .expiredStop
      else if e.query = query then .found e.query_id
      else scanCandidates query cache_expiration_time expiration_time rest

/-- The outer `while cache_size > 0` pagination loop. -/
def cacheScanLoop (query : String) (cache_expiration_time : Int)
    (expiration_time : Int) : List (List AthenaQueryExecution) → Int → Option String
  | [], _ => none
  | page :: rest, budget =>
      if budget ≤ 0 then none
      else
        let max_results := min budget LIST_QUERY_EXECUTIONS_MAX_RESULTS
        let budget2 := budget - max_results
        match scanCandidates query cache_expiration_time expiration_time
            (sortCandidatesDesc (filterCandidates page)) with
        | .found qid => some qid
        | .expiredStop => none
        | .noMatch => if rest.isEmpty then none
            else cacheScanLoop query cache_expiration_time expiration_time rest budget2

/-- `BaseCursor._find_previous_query_id(query, work_group, cache_size,
cache_expiration_time)`; `now` is the sampled `datetime.now(timezone.utc)`.
The loop-exit test `if query_id or next_token is None` treats an empty id
string as falsy; execution ids are the non-empty opaque strings the
service assigns (spec §3), for which the embedding and the code agree. -/
def _find_previous_query_id (pages : List (List AthenaQueryExecution)) (query : String)
    (cache_size : Int) (cache_expiration_time : Int) (now : Int) : Option String :=
  let cache_size := if cache_size = 0 ∧ cache_expiration_time > 0 then sysMaxsize else cache_size
  let expiration_time := if cache_expiration_time > 0 then now - cache_expiration_time else now
  cacheScanLoop query cache_expiration_time expiration_time pages cache_size

/-- Spec-side comparison definition for the "treated as unbounded (all
available history)" clause of §4.2: the same scan with no budget at all. -/
def cacheScanNoBudget (query : String) (cache_expiration_time : Int)
    (expiration_time : Int) : List (List AthenaQueryExecution) → Option String
  | [] => none
  | page :: rest =>
      match scanCandidates query cache_expiration_time expiration_time
          (sortCandidatesDesc (filterCandidates page)) with
      | .found qid => some qid
      | .expiredStop => none
      | .noMatch => if rest.isEmpty then none
          else cacheScanNoBudget query cache_expiration_time expiration_time rest

def findPreviousQueryIdUnbounded (pages : List (List AthenaQueryExecution)) (query : String)
    (cache_expiration_time : Int) (now : Int) : Option String :=
  let expiration_time := if cache_expiration_time > 0 then now - cache_expiration_time else now
  cacheScanNoBudget query cache_expiration_time expiration_time pages

/-! ### `arraysize` setters

`CursorIterator.arraysize` (common.py lines 62–72) and `Cursor.arraysize`
(cursor.py lines 74–84) have identical bodies: reject values outside
`1..DEFAULT_FETCH_SIZE` before storing.  `WithFetch.arraysize`
(result_set.py lines 993–1001) — used by the file-based cursors — only
rejects non-positive values.  A Python property setter that raises leaves
the stored attribute untouched, so each setter returns the new stored
value paired with the raised error, if any. -/

def DEFAULT_FETCH_SIZE : Int := 1000

def CursorIterator.setArraysize (current value : Int) : Int × Option PyErr :=
  if value ≤ 0 ∨ value > DEFAULT_FETCH_SIZE then
    (current, some (.programmingError "MaxResults is more than maximum allowed length 1000."))
  else (value, none)

/-- `Cursor.arraysize` setter (cursor.py) — same body as
`CursorIterator`'s. -/
def Cursor.setArraysize (current value : Int) : Int × Option PyErr :=
  if value ≤ 0 ∨ value > DEFAULT_FETCH_SIZE then
    (current, some (.programmingError "MaxResults is more than maximum allowed length 1000."))
  else (value, none)

def WithFetch.setArraysize (current value : Int) : Int × Option PyErr :=
  if value ≤ 0 then
    (current, some (.programmingError "arraysize must be a positive integer value."))
  else (value, none)

/-! ### `AthenaResultSet` (`pyathena/result_set.py`)

The result set is embedded as an explicit state record plus
state-transforming functions for each method.  Rows are modelled as their
converted form (`List PyValue`); the per-cell conversion inside
`_get_rows`, the column-metadata parsing details, and the header-label-row
stripping of `_pre_fetch` are not re-modelled here — the claims settled
against this embedding (C6–C10) quantify over buffer / pagination /
counter state only and are independent of cell contents.  The remote
`GetQueryResults` endpoint is modelled as the list of page responses
successive calls would return; an exhausted response list corresponds to a
failing remote call (wrapped as `OperationalError` by
`__get_query_results`). -/

/-- A converted result row (Python tuple of cell values). -/
def Row := List PyValue

/-- Tuple truthiness: an empty tuple is falsy (this is what
`fetchmany` / `fetchall` test with `if row:`). -/
def rowTruthy (r : Row) : Bool := !(List.isEmpty r)

/-- One `GetQueryResults` response: converted rows, next-page token, the
column names of the metadata block, and the optional `UpdateCount`. -/
structure ResultsPage where
  rows : List Row
  next_token : Option String
  column_info : List String
  update_count : Option Int

/-- The mutable state of an `AthenaResultSet` together with the remaining
remote responses.  `connected = false` models `_connection is None`
(i.e. `is_closed`). -/
structure ResultSetState where
  connected : Bool
  queryExecution : Option AthenaQueryExecution
  metadata : Option (List String)
  rows : List Row
  nextToken : Option String
  rownumber : Option Nat
  rowcount : Int
  arraysize : Int
  pages : List ResultsPage

/-- `is_closed`: the connection reference has been dropped. -/
def ResultSetState.is_closed (s : ResultSetState) : Bool := !s.connected

/-- The `connection` property: raises `ProgrammingError` once closed. -/
def ResultSetState.connection (s : ResultSetState) : Except PyErr Unit :=
  if s.is_closed then .error (.programmingError "AthenaResultSet is closed.")
  else .ok ()

/-- `__get_query_results`: guard checks, then the remote call (consuming
the next prepared response; no response left = the remote call failing,
which the code wraps as `OperationalError`). -/
def getQueryResultsCall (s : ResultSetState) : Except PyErr (ResultsPage × ResultSetState) :=
  match s.queryExecution with
  | none => .error (.programmingError "QueryExecutionId is none or empty.")
  | some qe =>
      if qe.query_id = "" then .error (.programmingError "QueryExecutionId is none or empty.")
      else if qe.state ≠ QState.succeeded then
        .error (.programmingError "QueryExecutionState is not SUCCEEDED.")
      else if s.is_closed then .error (.programmingError "AthenaResultSet is closed.")
      else
        match s.pages with
        | [] => .error (.operationalError "Failed to fetch result set.")
        | p :: rest => .ok (p, { s with pages := rest })

/-- `_process_rows`: extend the buffer only when the page has rows and
metadata is present. -/
def processRows (s : ResultSetState) (pageRows : List Row) : ResultSetState :=
  if !pageRows.isEmpty && s.metadata.isSome then { s with rows := s.rows ++ pageRows }
  else s

/-- `_fetch`: requires a pagination token, fetches the next page, stores
the new token and appends the page's rows. -/
def ResultSetState.fetch (s : ResultSetState) : Except PyErr ResultSetState :=
  match s.nextToken with
  | none => .error (.programmingError "NextToken is none or empty.")
  | some _ =>
      match getQueryResultsCall s with
      | .error e => .error e
      | .ok (p, s1) => .ok (processRows { s1 with nextToken := p.next_token } p.rows)

/-- The upper-cased substatement type (`self.substatement_type.upper()`,
empty when the execution reference is gone). -/
def substatementUpper (s : ResultSetState) : String :=
  (s.queryExecution.map (fun qe => pyToUpper qe.substatement_type)).getD ""

/-- `_process_update_count`: set `rowcount` from `UpdateCount` for the DML
substatement types. -/
def processUpdateCount (s : ResultSetState) (p : ResultsPage) : ResultSetState :=
  match p.update_count with
  | some n =>
      if substatementUpper s = "INSERT" ∨ substatementUpper s = "UPDATE" ∨
          substatementUpper s = "DELETE" ∨ substatementUpper s = "MERGE" ∨
          substatementUpper s = "CREATE_TABLE_AS_SELECT" then { s with rowcount := n }
      else s
  | none => s

/-- `_pre_fetch`: first page request, metadata processing, update count,
then buffer the rows and retain the token.  (Header-label-row stripping is
not modelled; see the section comment.) -/
def preFetch (s : ResultSetState) : Except PyErr ResultSetState :=
  match getQueryResultsCall s with
  | .error e => .error e
  | .ok (p, s1) =>
      let s2 := { s1 with metadata := some p.column_info }
      let s3 := processUpdateCount s2 p
      .ok (processRows { s3 with nextToken := p.next_token } p.rows)

/-- `AthenaResultSet.__init__` (result_set.py lines 60–101): store the
execution, route `arraysize` through the `CursorIterator` setter (which
raises on out-of-range values before anything is stored), initialise
`_rownumber = None` / `_rowcount = -1` / empty buffers, and — only when
the bound execution is `SUCCEEDED` — set `_rownumber = 0` and run the
pre-fetch. -/
def mkResultSet (qe : AthenaQueryExecution) (arraysize : Int)
    (pages : List ResultsPage) : Except PyErr ResultSetState :=
  match CursorIterator.setArraysize DEFAULT_FETCH_SIZE arraysize with
  | (_, some e) => .error e
  | (stored, none) =>
      let s : ResultSetState :=
        { connected := true
          queryExecution := some qe
          metadata := none
          rows := []
          nextToken := none
          rownumber := none
          rowcount := -1
          arraysize := stored
          pages := pages }
      if qe.state = QState.succeeded then preFetch { s with rownumber := some 0 }
      else .ok s

/-- First half of `fetchone`: `if not self._rows and self._next_token:
self._fetch()`. -/
def fetchoneStep (s : ResultSetState) : Except PyErr ResultSetState :=
  if s.rows.isEmpty && s.nextToken.isSome then s.fetch else .ok s

/-- `AthenaResultSet.fetchone` (result_set.py lines 385–395). -/
def fetchone (s : ResultSetState) : Except PyErr (Option Row × ResultSetState) :=
  match fetchoneStep s with
  | .error e => .error e
  | .ok s1 =>
      match s1.rows with
      | [] => .ok (none, s1)
      | r :: rest =>
          .ok (some r, { s1 with rows := rest, rownumber := some (s1.rownumber.getD 0 + 1) })

/-- The `for _ in range(size)` loop of `fetchmany`: collect rows while
`fetchone` keeps returning truthy rows. -/
def fetchmanyLoop : Nat → ResultSetState → Except PyErr (List Row × ResultSetState)
  | 0, s => .ok ([], s)
  | n + 1, s =>
      match fetchone s with
      | .error e => .error e
      | .ok (none, s1) => .ok ([], s1)
      | .ok (some r, s1) =>
          if rowTruthy r then
            match fetchmanyLoop n s1 with
            | .error e => .error e
            | .ok (rs, s2) => .ok (r :: rs, s2)
          else .ok ([], s1)

/-- `if not size or size <= 0: size = self._arraysize` — the requested
count after substitution. -/
def effectiveFetchSize (s : ResultSetState) (size : Option Int) : Int :=
  match size with
  | none => s.arraysize
  | some v => if v ≤ 0 then s.arraysize else v

/-- `AthenaResultSet.fetchmany` (result_set.py lines 397–409). -/
def fetchmany (s : ResultSetState) (size : Option Int) :
    Except PyErr (List Row × ResultSetState) :=
  fetchmanyLoop (effectiveFetchSize s size).toNat s

/-- `AthenaResultSet.close` (result_set.py lines 651–660): drop the
connection and execution references, clear metadata and buffers, reset the
token, `rownumber` and `rowcount`.  (The prepared remote responses are the
environment, not object state, and are untouched.) -/
def ResultSetState.close (s : ResultSetState) : ResultSetState :=
  { s with
    connected := false
    queryExecution := none
    metadata := none
    rows := []
    nextToken := none
    rownumber := none
    rowcount := -1 }

/-! ## Theorems -/

/-! ### C1 — typed array round-trip -/

/-- C1: for the default type converter with a caller-supplied type hint,
converting the cell string `"[1234, 5678]"` under hint `array(varchar)`
yields the list of strings `["1234", "5678"]` (numeric-looking strings
preserved as strings), and converting `"[1,2,3]"` under hint
`array(integer)` yields the list of integers `[1, 2, 3]`. -/
theorem c1_typed_array_roundtrip :
    DefaultTypeConverter.convert "array" (some "[1234, 5678]") (some "array(varchar)")
      = .ok (.list [.str "1234", .str "5678"]) ∧
    DefaultTypeConverter.convert "array" (some "[1,2,3]") (some "array(integer)")
      = .ok (.list [.int 1, .int 2, .int 3]) :=
  ⟨rfl, rfl⟩

/-! ### C2 — structural fallback of the typed conversion -/

/-- Shape-guard step of `_convert_typed_array`: a value without the
bracket shape yields `None` before any recursion. -/
theorem convRun_value_array_shape (fuel : Nat) (v : String) (t : TypeNode)
    (ht : t.type_name = "array")
    (h : (pyStartsWith v "[" && pyEndsWith v "]") = false) :
    convRun (fuel + 1 + 1) (.value v t) = .ok .null := by
  simp [convRun, ht, h]

/-- Shape-guard step of `_convert_typed_map` / `_convert_typed_struct`. -/
theorem convRun_value_brace_shape (fuel : Nat) (v : String) (t : TypeNode)
    (ht : t.type_name = "map" ∨ t.type_name = "row" ∨ t.type_name = "struct")
    (h : (pyStartsWith v "\x7b" && pyEndsWith v "\x7d") = false) :
    convRun (fuel + 1 + 1) (.value v t) = .ok .null := by
  rcases ht with ht | ht | ht <;> simp [convRun, ht, h]

theorem uRun_toArray_shape (fuel : Nat) (s : String)
    (h : (pyStartsWith s "[" && pyEndsWith s "]") = false) :
    uRun (fuel + 1) (.toArray s) = some .null := by
  simp [uRun, h]

theorem uRun_toMap_shape (fuel : Nat) (s : String)
    (h : (pyStartsWith s "\x7b" && pyEndsWith s "\x7d") = false) :
    uRun (fuel + 1) (.toMap s) = some .null := by
  simp [uRun, h]

theorem uRun_toStruct_shape (fuel : Nat) (s : String)
    (h : (pyStartsWith s "\x7b" && pyEndsWith s "\x7d") = false) :
    uRun (fuel + 1) (.toStruct s) = some .null := by
  simp [uRun, h]

theorem convValueWithType_array_shape (v : String) (t : TypeNode)
    (ht : t.type_name = "array")
    (h : (pyStartsWith v "[" && pyEndsWith v "]") = false) :
    _convert_value_with_type v t = .ok .null := by
  unfold _convert_value_with_type
  rw [show convFuel v = 8 * v.length + 254 + 1 + 1 by unfold convFuel; omega]
  exact convRun_value_array_shape _ v t ht h

theorem convValueWithType_brace_shape (v : String) (t : TypeNode)
    (ht : t.type_name = "map" ∨ t.type_name = "row" ∨ t.type_name = "struct")
    (h : (pyStartsWith v "\x7b" && pyEndsWith v "\x7d") = false) :
    _convert_value_with_type v t = .ok .null := by
  unfold _convert_value_with_type
  rw [show convFuel v = 8 * v.length + 254 + 1 + 1 by unfold convFuel; omega]
  exact convRun_value_brace_shape _ v t ht h

theorem to_array_shape (s : String)
    (h : (pyStartsWith s "[" && pyEndsWith s "]") = false) :
    _to_array (some s) = .ok .null := by
  have h1 : uRun (uFuel s) (.toArray s) = some .null := by
    rw [show uFuel s = 8 * s.length + 255 + 1 by unfold uFuel; omega]
    exact uRun_toArray_shape _ s h
  simp only [_to_array, h1]

theorem to_map_shape (s : String)
    (h : (pyStartsWith s "\x7b" && pyEndsWith s "\x7d") = false) :
    _to_map (some s) = .ok .null := by
  have h1 : uRun (uFuel s) (.toMap s) = some .null := by
    rw [show uFuel s = 8 * s.length + 255 + 1 by unfold uFuel; omega]
    exact uRun_toMap_shape _ s h
  simp only [_to_map, h1]

theorem to_struct_shape (s : String)
    (h : (pyStartsWith s "\x7b" && pyEndsWith s "\x7d") = false) :
    _to_struct (some s) = .ok .null := by
  have h1 : uRun (uFuel s) (.toStruct s) = some .null := by
    rw [show uFuel s = 8 * s.length + 255 + 1 by unfold uFuel; omega]
    exact uRun_toStruct_shape _ s h
  simp only [_to_struct, h1]

/-- C2 counterexample: the claim says the converter "never raises", but
element contents the hinted type cannot interpret do raise: under hint
`array(integer)`, the JSON array `["a"]` parses structurally, and then
`int("a")` raises `ValueError` out of `DefaultTypeConverter.convert`
(there is no try/except around `_convert_element`). -/
theorem c2_counterexample_contents_raise :
    DefaultTypeConverter.convert "array" (some "[\"a\"]") (some "array(integer)")
      = .error .valueError :=
  rfl

/-- C2 (amended): when the hinted type is complex and the cell string does
not have the required bracket/brace shape, the typed conversion returns
`None` without raising — and this coincides with the untyped conversion,
which also returns `None` for the corresponding declared complex types
(`array`/`map`/`row`).  The fallback is only structural: element contents
that the hinted primitive type cannot interpret raise (see the
counterexample). -/
theorem c2_structural_fallback :
    (∀ (v : String) (t : TypeNode), t.type_name = "array" →
        (pyStartsWith v "[" && pyEndsWith v "]") = false →
        _convert_value_with_type v t = .ok .null ∧ _to_array (some v) = .ok .null) ∧
    (∀ (v : String) (t : TypeNode),
        (t.type_name = "map" ∨ t.type_name = "row" ∨ t.type_name = "struct") →
        (pyStartsWith v "\x7b" && pyEndsWith v "\x7d") = false →
        _convert_value_with_type v t = .ok .null ∧
          _to_map (some v) = .ok .null ∧ _to_struct (some v) = .ok .null) := by
  refine ⟨fun v t ht h => ⟨?_, ?_⟩, fun v t ht h => ⟨?_, ?_, ?_⟩⟩
  · exact convValueWithType_array_shape v t ht h
  · exact to_array_shape v h
  · exact convValueWithType_brace_shape v t ht h
  · exact to_map_shape v h
  · exact to_struct_shape v h

/-- Witness for C2 (amended) at the concrete cell `"abc"`. -/
theorem c2_structural_fallback_witness :
    _convert_value_with_type "abc" (TypeNode.mk "array" [] none) = .ok .null ∧
    _to_array (some "abc") = .ok .null ∧
    _convert_value_with_type "abc" (TypeNode.mk "map" [] none) = .ok .null := by
  refine ⟨?_, ?_, ?_⟩
  · exact (c2_structural_fallback.1 "abc" (TypeNode.mk "array" [] none) rfl (by decide)).1
  · exact (c2_structural_fallback.1 "abc" (TypeNode.mk "array" [] none) rfl (by decide)).2
  · exact (c2_structural_fallback.2 "abc" (TypeNode.mk "map" [] none) (Or.inl rfl)
      (by decide)).1

/-! ### C3 — Hive-dialect normalisation and aliases -/

/-- C3 counterexample: `TypeSignatureParser.parse` never invokes the
Hive-dialect normalisation helper, so parsing the angle-bracket dialect
directly does not yield the canonical tree — the whole dialect string
(containing no parenthesis) is taken as a leaf type name. -/
theorem c3_counterexample_dialect_not_normalized :
    (parseSig "array<struct<a:int>>").type_name = "array<struct<a:int>>" ∧
    (parseSig "array(struct(a int))").type_name = "array" ∧
    "array<struct<a:int>>" ≠ "array" :=
  ⟨rfl, rfl, by decide⟩

/-- C3 (amended): the normalisation helper itself rewrites the
angle-bracket/colon dialect to the canonical parenthesised/space form, so
parsing its output yields the same tree as parsing the canonical form, and
`TypeSignatureParser.parse` maps the known alias (`int` parses to a leaf
named `integer`); but `parse` does not apply the normalisation itself, and
converter.py's `parse_type_signature` applies neither the normalisation
nor the aliases. -/
theorem c3_normalize_then_parse :
    _normalize_hive "array<struct<a:int>>" = "array(struct(a int))" ∧
    parseSig (_normalize_hive "array<struct<a:int>>") = parseSig "array(struct(a int))" ∧
    parseSig "int" = TypeNode.mk "integer" [] none ∧
    parse_type_signature "int" = TypeNode.mk "int" [] none :=
  ⟨rfl, rfl, rfl, rfl⟩

/-! ### C4 — cache lookup soundness -/

/-- The inner scan only returns candidates from its input whose raw query
text equals the requested text. -/
theorem scanCandidates_found (q : String) (ce et : Int) :
    ∀ (l : List AthenaQueryExecution) (id : String),
      scanCandidates q ce et l = .found id →
      ∃ e ∈ l, e.query_id = id ∧ e.query = q := by
  intro l
  induction l with
  | nil => intro id h; simp [scanCandidates] at h
  | cons e rest ih =>
      intro id h
      unfold scanCandidates at h
      split at h
      · simp at h
      · split at h
        · rename_i hq
          simp only [ScanOutcome.found.injEq] at h
          exact ⟨e, List.mem_cons_self e rest, h ▸ rfl, hq⟩
        · obtain ⟨e2, he2, h1, h2⟩ := ih id h
          exact ⟨e2, List.mem_cons_of_mem e he2, h1, h2⟩

/-- Membership is preserved by the stable descending sort. -/
theorem mem_sortCandidatesDesc (l : List AthenaQueryExecution) (e : AthenaQueryExecution) :
    e ∈ sortCandidatesDesc l ↔ e ∈ l :=
  (List.perm_insertionSort _ l).mem_iff

/-- Soundness of the pagination loop: a returned id comes from a listed
execution that passed the SUCCEEDED/DML filter and matched the query. -/
theorem cacheScanLoop_sound (q : String) (ce et : Int) :
    ∀ (pages : List (List AthenaQueryExecution)) (b : Int) (id : String),
      cacheScanLoop q ce et pages b = some id →
      ∃ page ∈ pages, ∃ e ∈ page,
        e.query_id = id ∧ e.state = QState.succeeded ∧
        e.statement_type = StatementType.dml ∧ e.query = q := by
  intro pages
  induction pages with
  | nil => intro b id h; simp [cacheScanLoop] at h
  | cons page rest ih =>
      intro b id h
      unfold cacheScanLoop at h
      split at h
      · simp at h
      · split at h
        · rename_i a hfound
          have hid : a = id := by simpa using h
          subst hid
          obtain ⟨e, he, h1, h2⟩ := scanCandidates_found q ce et _ _ hfound
          rw [mem_sortCandidatesDesc] at he
          have he2 := List.mem_filter.mp he
          refine ⟨page, List.mem_cons_self page rest, e, he2.1, h1, ?_, ?_, h2⟩
          · have := he2.2
            simp only [Bool.and_eq_true, decide_eq_true_eq] at this
            exact this.1
          · have := he2.2
            simp only [Bool.and_eq_true, decide_eq_true_eq] at this
            exact this.2
        · simp at h
        · split at h
          · simp at h
          · obtain ⟨page2, hp2, e, he, props⟩ := ih _ id h
            exact ⟨page2, List.mem_cons_of_mem page hp2, e, he, props⟩

/-- With a budget of at least 50 per remaining page, the budgeted loop
coincides with the spec-side unbounded scan. -/
theorem cacheScanLoop_eq_noBudget (q : String) (ce et : Int) :
    ∀ (pages : List (List AthenaQueryExecution)) (b : Int),
      50 * (pages.length : Int) ≤ b →
      cacheScanLoop q ce et pages b = cacheScanNoBudget q ce et pages := by
  intro pages
  induction pages with
  | nil => intro b _; rfl
  | cons page rest ih =>
      intro b hb
      have hlen : ((page :: rest).length : Int) = (rest.length : Int) + 1 := by
        simp
      have hb0 : ¬ b ≤ 0 := by rw [hlen] at hb; omega
      have hmin : min b LIST_QUERY_EXECUTIONS_MAX_RESULTS = 50 := by
        unfold LIST_QUERY_EXECUTIONS_MAX_RESULTS
        rw [hlen] at hb; omega
      unfold cacheScanLoop cacheScanNoBudget
      rw [if_neg hb0]
      split
      · rfl
      · rfl
      · split
        · rfl
        · rw [hmin]
          exact ih (b - 50) (by rw [hlen] at hb; omega)

/-- C4: whenever `_find_previous_query_id` returns an execution id, that
id belongs to a listed execution with state SUCCEEDED, statement type DML,
and raw query text equal to the requested text; within a page, candidates
are scanned as a completion-time-descending permutation of the filtered
page; and `cache_size = 0` with `cache_expiration_time > 0` normalises the
budget to `sys.maxsize`, which behaves as an unbounded scan (for any page
count the budget can accommodate). -/
theorem c4_cache_lookup :
    (∀ (pages : List (List AthenaQueryExecution)) (query : String)
        (cs ce now : Int) (qid : String),
        _find_previous_query_id pages query cs ce now = some qid →
        ∃ page ∈ pages, ∃ e ∈ page,
          e.query_id = qid ∧ e.state = QState.succeeded ∧
          e.statement_type = StatementType.dml ∧ e.query = query) ∧
    (∀ l : List AthenaQueryExecution,
        List.Pairwise (fun a b => b.completion_date_time ≤ a.completion_date_time)
          (sortCandidatesDesc l) ∧
        ∀ e, e ∈ sortCandidatesDesc l ↔ e ∈ l) ∧
    (∀ (pages : List (List AthenaQueryExecution)) (query : String) (ce now : Int),
        0 < ce → 50 * (pages.length : Int) ≤ sysMaxsize →
        _find_previous_query_id pages query 0 ce now
          = findPreviousQueryIdUnbounded pages query ce now) := by
  refine ⟨?_, ?_, ?_⟩
  · intro pages query cs ce now qid h
    exact cacheScanLoop_sound query ce _ pages _ qid h
  · intro l
    constructor
    · haveI : IsTotal AthenaQueryExecution
          (fun a b => b.completion_date_time ≤ a.completion_date_time) :=
        ⟨fun a b => le_total b.completion_date_time a.completion_date_time⟩
      haveI : IsTrans AthenaQueryExecution
          (fun a b => b.completion_date_time ≤ a.completion_date_time) :=
        ⟨fun _ _ _ hab hbc => le_trans hbc hab⟩
      exact List.sorted_insertionSort _ l
    · exact fun e => mem_sortCandidatesDesc l e
  · intro pages query ce now hce hlen
    unfold _find_previous_query_id findPreviousQueryIdUnbounded
    rw [if_pos ⟨rfl, hce⟩]
    exact cacheScanLoop_eq_noBudget query ce _ pages sysMaxsize hlen

/-- A sample SUCCEEDED DML execution used by concrete witnesses. -/
def sampleExec : AthenaQueryExecution :=
  { query_id := "qid-1"
    query := "SELECT 1"
    state := QState.succeeded
    statement_type := StatementType.dml
    substatement_type := "SELECT"
    completion_date_time := 100 }

/-- Witness for C4 at a one-page listing containing `sampleExec`. -/
theorem c4_cache_lookup_witness :
    (∃ page ∈ [[sampleExec]], ∃ e ∈ page,
        e.query_id = "qid-1" ∧ e.state = QState.succeeded ∧
        e.statement_type = StatementType.dml ∧ e.query = "SELECT 1") ∧
    _find_previous_query_id [[sampleExec]] "SELECT 1" 0 30 200
      = findPreviousQueryIdUnbounded [[sampleExec]] "SELECT 1" 30 200 := by
  constructor
  · exact c4_cache_lookup.1 [[sampleExec]] "SELECT 1" 10 0 200 "qid-1" (by rfl)
  · exact c4_cache_lookup.2.2 [[sampleExec]] "SELECT 1" 30 200 (by decide) (by decide)

/-! ### C5 — polling returns exactly at the first terminal snapshot -/

/-- C5: `__poll` never returns a non-terminal execution, and it returns
exactly when the most recently fetched snapshot is terminal, with one
get-execution call per loop iteration: if the first terminal snapshot is
the `N`-th in the stream, the loop makes exactly `N` calls and returns
that snapshot. -/
theorem c5_poll_terminal :
    (∀ (stream : List AthenaQueryExecution) (e : AthenaQueryExecution) (n : Nat),
        pollLoop stream = some (e, n) → isTerminalState e.state = true) ∧
    (∀ (pre : List AthenaQueryExecution) (e : AthenaQueryExecution)
        (post : List AthenaQueryExecution),
        (∀ x ∈ pre, isTerminalState x.state = false) →
        isTerminalState e.state = true →
        pollLoop (pre ++ e :: post) = some (e, pre.length + 1)) := by
  constructor
  · intro stream
    induction stream with
    | nil => intro e n h; simp [pollLoop] at h
    | cons x rest ih =>
        intro e n h
        unfold pollLoop at h
        split at h
        · rename_i ht
          obtain ⟨he, _⟩ := Prod.mk.injEq .. ▸ (Option.some.injEq .. ▸ h)
          exact he ▸ ht
        · obtain ⟨p, hp, hpe⟩ := Option.map_eq_some'.mp h
          obtain ⟨he, _⟩ := Prod.mk.injEq .. ▸ hpe
          exact he ▸ ih p.1 p.2 (hp.trans (by rw [Prod.mk.eta]))
  · intro pre
    induction pre with
    | nil =>
        intro e post _ hterm
        simp [pollLoop, hterm]
    | cons x xs ih =>
        intro e post hpre hterm
        have hx : isTerminalState x.state = false := hpre x (List.mem_cons_self x xs)
        have ihx := ih e post (fun y hy => hpre y (List.mem_cons_of_mem x hy)) hterm
        simp [pollLoop, hx, ihx]

/-- Executions in the QUEUED and RUNNING states (concrete witness data). -/
def sampleQueuedExec : AthenaQueryExecution :=
  { sampleExec with state := QState.queued }

def sampleRunningExec : AthenaQueryExecution :=
  { sampleExec with state := QState.running }

/-- Witness for C5: a QUEUED → RUNNING → SUCCEEDED stream yields exactly 3
get-execution calls and returns the terminal snapshot. -/
theorem c5_poll_terminal_witness :
    pollLoop [sampleQueuedExec, sampleRunningExec, sampleExec] = some (sampleExec, 3) := by
  have h := c5_poll_terminal.2 [sampleQueuedExec, sampleRunningExec] sampleExec []
    (by intro x hx; fin_cases hx <;> rfl) (by rfl)
  simpa using h

/-! ### Result-set fetch lemmas shared by C6–C10 -/

/-- An exhausted (or empty) result set: empty buffer and no pagination
token.  `fetchone` then answers the end-marker without touching state. -/
theorem fetchone_exhausted (s : ResultSetState)
    (h1 : s.rows = []) (h2 : s.nextToken = none) :
    fetchone s = .ok (none, s) := by
  have hs : fetchoneStep s = .ok s := by simp [fetchoneStep, h1, h2]
  unfold fetchone
  rw [hs]
  simp [h1]

theorem fetchmanyLoop_exhausted (n : Nat) (s : ResultSetState)
    (h1 : s.rows = []) (h2 : s.nextToken = none) :
    fetchmanyLoop n s = .ok ([], s) := by
  cases n with
  | zero => rfl
  | succ n => unfold fetchmanyLoop; rw [fetchone_exhausted s h1 h2]

theorem fetchmany_exhausted (s : ResultSetState) (size : Option Int)
    (h1 : s.rows = []) (h2 : s.nextToken = none) :
    fetchmany s size = .ok ([], s) :=
  fetchmanyLoop_exhausted _ s h1 h2

/-- A non-empty buffer: `fetchone` pops the oldest row and increments
`rownumber` (initialising it from `None` to 0 first). -/
theorem fetchone_cons (s : ResultSetState) (r : Row) (rest : List Row)
    (h : s.rows = r :: rest) :
    fetchone s = .ok (some r,
      { s with rows := rest, rownumber := some (s.rownumber.getD 0 + 1) }) := by
  have hs : fetchoneStep s = .ok s := by simp [fetchoneStep, h]
  unfold fetchone
  rw [hs]
  simp [h]

theorem getQueryResultsCall_state (s : ResultSetState) (p : ResultsPage)
    (s1 : ResultSetState) (h : getQueryResultsCall s = .ok (p, s1)) :
    s1 = { s with pages := s.pages.tail } ∧ s.pages = p :: s.pages.tail := by
  unfold getQueryResultsCall at h
  split at h
  · exact absurd h (by simp)
  · split at h
    · exact absurd h (by simp)
    · split at h
      · exact absurd h (by simp)
      · split at h
        · exact absurd h (by simp)
        · split at h
          · exact absurd h (by simp)
          · rename_i p2 rest hpages
            simp only [Except.ok.injEq, Prod.mk.injEq] at h
            obtain ⟨hp, hs⟩ := h
            subst hp
            constructor
            · rw [← hs, hpages]
              rfl
            · rw [hpages]
              rfl

theorem processRows_rownumber (s : ResultSetState) (rows : List Row) :
    (processRows s rows).rownumber = s.rownumber := by
  unfold processRows
  split <;> rfl

theorem processUpdateCount_rownumber (s : ResultSetState) (p : ResultsPage) :
    (processUpdateCount s p).rownumber = s.rownumber := by
  unfold processUpdateCount
  split
  · split <;> rfl
  · rfl

theorem fetch_preserves_rownumber (s s1 : ResultSetState)
    (h : s.fetch = .ok s1) : s1.rownumber = s.rownumber := by
  unfold ResultSetState.fetch at h
  split at h
  · exact absurd h (by simp)
  · cases hg : getQueryResultsCall s with
    | error e => rw [hg] at h; exact absurd h (by simp)
    | ok pr =>
        obtain ⟨p, s2⟩ := pr
        rw [hg] at h
        simp only [Except.ok.injEq] at h
        obtain ⟨hs2, _⟩ := getQueryResultsCall_state s p s2 hg
        subst hs2
        rw [← h, processRows_rownumber]

theorem fetchoneStep_preserves_rownumber (s s1 : ResultSetState)
    (h : fetchoneStep s = .ok s1) : s1.rownumber = s.rownumber := by
  unfold fetchoneStep at h
  split at h
  · exact fetch_preserves_rownumber s s1 h
  · simp only [Except.ok.injEq] at h
    rw [← h]

theorem preFetch_preserves_rownumber (s s1 : ResultSetState)
    (h : preFetch s = .ok s1) : s1.rownumber = s.rownumber := by
  unfold preFetch at h
  cases hg : getQueryResultsCall s with
  | error e => rw [hg] at h; exact absurd h (by simp)
  | ok pr =>
      obtain ⟨p, s2⟩ := pr
      rw [hg] at h
      simp only [Except.ok.injEq] at h
      obtain ⟨hs2, _⟩ := getQueryResultsCall_state s p s2 hg
      subst hs2
      rw [← h, processRows_rownumber, processUpdateCount_rownumber]

/-! ### C6 — closing a result set -/

/-- A concrete open result set with one buffered row and one further page,
used by the counterexamples and witnesses. -/
def sampleState : ResultSetState :=
  { connected := true
    queryExecution := some sampleExec
    metadata := some ["col1"]
    rows := [[PyValue.int 1]]
    nextToken := some "tok"
    rownumber := some 0
    rowcount := -1
    arraysize := 10
    pages := [{ rows := [[PyValue.int 2]], next_token := none,
                column_info := ["col1"], update_count := none }] }

/-- C6 counterexample: on a closed result set, `fetchone` returns the
end-marker and `fetchmany` returns the empty list — neither raises — so
"every further operation raises a programming error" is false as stated. -/
theorem c6_counterexample_closed_fetch_returns :
    (sampleState.close).is_closed = true ∧
    fetchone sampleState.close = .ok (none, sampleState.close) ∧
    fetchmany sampleState.close (some 3) = .ok ([], sampleState.close) :=
  ⟨rfl, rfl, rfl⟩

/-- C6 (amended): `close` is idempotent and clears all buffers and
counters; after closing, operations that touch the transport — the
`connection` property and a page fetch — raise `ProgrammingError`, but the
fetch methods degrade quietly: `fetchone` returns the end-marker and
`fetchmany` the empty list, without raising. -/
theorem c6_close_idempotent_and_guards :
    ∀ s : ResultSetState,
      (s.close).close = s.close ∧
      (s.close).is_closed = true ∧
      (s.close).rows = [] ∧
      (s.close).nextToken = none ∧
      (s.close).rownumber = none ∧
      (s.close).rowcount = -1 ∧
      (s.close).metadata = none ∧
      (s.close).queryExecution = none ∧
      (s.close).connection = .error (.programmingError "AthenaResultSet is closed.") ∧
      (s.close).fetch = .error (.programmingError "NextToken is none or empty.") ∧
      fetchone s.close = .ok (none, s.close) ∧
      (∀ size, fetchmany s.close size = .ok ([], s.close)) := by
  intro s
  refine ⟨rfl, rfl, rfl, rfl, rfl, rfl, rfl, rfl, rfl, rfl, ?_, ?_⟩
  · exact fetchone_exhausted _ rfl rfl
  · intro size; exact fetchmany_exhausted _ size rfl rfl

/-! ### C7 — rownumber bookkeeping -/

/-- An empty first page (no rows, no further pages). -/
def samplePage : ResultsPage :=
  { rows := [], next_token := none, column_info := ["col1"], update_count := none }

/-- C7 counterexample: a result set freshly constructed from a SUCCEEDED
execution has `rownumber = 0`, not the absent marker `None` — the claim
that `rownumber` is absent before the first row is fetched is false
(result_set.py line 99 sets `self._rownumber = 0` in `__init__`). -/
theorem c7_counterexample_rownumber_zero_after_init :
    (mkResultSet sampleExec 10 [samplePage]).map (fun s => s.rownumber) = .ok (some 0) ∧
    (some 0 : Option Nat) ≠ none :=
  ⟨rfl, by decide⟩

/-- C7 (amended): after construction `rownumber` is 0 for a SUCCEEDED
execution (and `None` only for a non-SUCCEEDED one); each row delivered by
`fetchone` increases it by exactly 1 (initialising the absent marker to 0
first), and a `fetchone` that delivers no row leaves it unchanged — so it
never decreases. -/
theorem c7_rownumber_increments :
    (∀ (qe : AthenaQueryExecution) (ars : Int) (pages : List ResultsPage)
        (s : ResultSetState), mkResultSet qe ars pages = .ok s →
        qe.state = QState.succeeded → s.rownumber = some 0) ∧
    (∀ (qe : AthenaQueryExecution) (ars : Int) (pages : List ResultsPage)
        (s : ResultSetState), mkResultSet qe ars pages = .ok s →
        qe.state ≠ QState.succeeded → s.rownumber = none) ∧
    (∀ (s : ResultSetState) (r : Row) (s1 : ResultSetState),
        fetchone s = .ok (some r, s1) →
        s1.rownumber = some (s.rownumber.getD 0 + 1)) ∧
    (∀ (s s1 : ResultSetState),
        fetchone s = .ok (none, s1) → s1.rownumber = s.rownumber) := by
  refine ⟨?_, ?_, ?_, ?_⟩
  · intro qe ars pages s h hsucc
    unfold mkResultSet at h
    split at h
    · exact absurd h (by simp)
    · rw [if_pos hsucc] at h
      rw [preFetch_preserves_rownumber _ _ h]
  · intro qe ars pages s h hne
    unfold mkResultSet at h
    split at h
    · exact absurd h (by simp)
    · rw [if_neg hne] at h
      simp only [Except.ok.injEq] at h
      rw [← h]
  · intro s r s1 h
    unfold fetchone at h
    cases hstep : fetchoneStep s with
    | error e => rw [hstep] at h; exact absurd h (by simp)
    | ok s2 =>
        rw [hstep] at h
        dsimp only at h
        have hrn := fetchoneStep_preserves_rownumber s s2 hstep
        cases hrows : s2.rows with
        | nil => rw [hrows] at h; exact absurd h (by simp)
        | cons r2 rest =>
            rw [hrows] at h
            simp only [Except.ok.injEq, Prod.mk.injEq] at h
            obtain ⟨_, hs1⟩ := h
            rw [← hs1]
            simp [hrn]
  · intro s s1 h
    unfold fetchone at h
    cases hstep : fetchoneStep s with
    | error e => rw [hstep] at h; exact absurd h (by simp)
    | ok s2 =>
        rw [hstep] at h
        dsimp only at h
        have hrn := fetchoneStep_preserves_rownumber s s2 hstep
        cases hrows : s2.rows with
        | nil =>
            rw [hrows] at h
            simp only [Except.ok.injEq, Prod.mk.injEq] at h
            rw [← h.2, hrn]
        | cons r2 rest => rw [hrows] at h; exact absurd h (by simp)

/-- The state `mkResultSet sampleExec 10 [samplePage]` evaluates to. -/
def samplePreFetchedState : ResultSetState :=
  { connected := true
    queryExecution := some sampleExec
    metadata := some ["col1"]
    rows := []
    nextToken := none
    rownumber := some 0
    rowcount := -1
    arraysize := 10
    pages := [] }

/-- Witness for C7 (amended): the construction clause at `sampleExec`, and
the increment clause at `sampleState` (whose buffer holds one row and
whose `rownumber` is 0). -/
theorem c7_rownumber_increments_witness :
    (∃ s, mkResultSet sampleExec 10 [samplePage] = .ok s ∧ s.rownumber = some 0) ∧
    (∃ r s1, fetchone sampleState = .ok (some r, s1) ∧ s1.rownumber = some 1) := by
  constructor
  · refine ⟨samplePreFetchedState, rfl, ?_⟩
    exact c7_rownumber_increments.1 sampleExec 10 [samplePage] samplePreFetchedState rfl rfl
  · refine ⟨[PyValue.int 1], _, rfl, ?_⟩
    exact c7_rownumber_increments.2.2.1 sampleState [PyValue.int 1] _ rfl

/-! ### C8 — fetching from an exhausted result set -/

/-- C8: for every requested size, `fetchmany` on an exhausted or empty
result set (empty buffer, no pagination token) returns the empty list and
never raises; repeated `fetchone` keeps returning the end-marker
idempotently, without error and without changing the state. -/
theorem c8_exhausted_fetches :
    ∀ s : ResultSetState, s.rows = [] → s.nextToken = none →
      fetchone s = .ok (none, s) ∧
      ∀ size, fetchmany s size = .ok ([], s) := by
  intro s h1 h2
  exact ⟨fetchone_exhausted s h1 h2, fun size => fetchmany_exhausted s size h1 h2⟩

/-- A concrete exhausted result set. -/
def sampleExhaustedState : ResultSetState :=
  { sampleState with rows := [], nextToken := none }

/-- Witness for C8 at the concrete exhausted state with `size = 5`. -/
theorem c8_exhausted_fetches_witness :
    fetchone sampleExhaustedState = .ok (none, sampleExhaustedState) ∧
    fetchmany sampleExhaustedState (some 5) = .ok ([], sampleExhaustedState) := by
  have h := c8_exhausted_fetches sampleExhaustedState rfl rfl
  exact ⟨h.1, h.2 (some 5)⟩

/-! ### C9 — arraysize bounds -/

/-- C9: setting the cursor's `arraysize` to 0, a negative value, or a
value above 1000 raises ProgrammingError and leaves the stored value
unchanged; values in 1..1000 are accepted and stored.  (`Cursor` and
`CursorIterator` share this validation; the laxer `WithFetch` override
used by the file-based cursors is embedded separately.) -/
theorem c9_arraysize_bounds :
    ∀ current value : Int,
      ((value ≤ 0 ∨ value > DEFAULT_FETCH_SIZE) →
        Cursor.setArraysize current value = (current,
          some (.programmingError "MaxResults is more than maximum allowed length 1000.")) ∧
        CursorIterator.setArraysize current value = (current,
          some (.programmingError "MaxResults is more than maximum allowed length 1000."))) ∧
      (1 ≤ value → value ≤ DEFAULT_FETCH_SIZE →
        Cursor.setArraysize current value = (value, none) ∧
        CursorIterator.setArraysize current value = (value, none)) := by
  intro current value
  constructor
  · intro h
    constructor
    · unfold Cursor.setArraysize; rw [if_pos h]
    · unfold CursorIterator.setArraysize; rw [if_pos h]
  · intro h1 h2
    have h : ¬ (value ≤ 0 ∨ value > DEFAULT_FETCH_SIZE) := by
      unfold DEFAULT_FETCH_SIZE at h2 ⊢; omega
    constructor
    · unfold Cursor.setArraysize; rw [if_neg h]
    · unfold CursorIterator.setArraysize; rw [if_neg h]

/-- Witness for C9 at the rejected value 1001 and the accepted value 10
(previous stored value 5). -/
theorem c9_arraysize_bounds_witness :
    Cursor.setArraysize 5 1001 = (5,
      some (.programmingError "MaxResults is more than maximum allowed length 1000.")) ∧
    Cursor.setArraysize 5 10 = (10, none) ∧
    CursorIterator.setArraysize 5 0 = (5,
      some (.programmingError "MaxResults is more than maximum allowed length 1000.")) :=
  ⟨((c9_arraysize_bounds 5 1001).1 (by right; decide)).1,
   ((c9_arraysize_bounds 5 10).2 (by decide) (by decide)).1,
   ((c9_arraysize_bounds 5 0).1 (by left; decide)).2⟩

/-! ### C10 — fetchmany size substitution -/

/-- A result set whose only buffered row is the empty tuple. -/
def sampleEmptyRowState : ResultSetState :=
  { sampleState with rows := [([] : Row)], nextToken := none }

/-- C10 counterexample: `fetchmany(0)` substitutes `arraysize` and is not
an error — but it CAN return zero rows while rows remain: an empty-tuple
row is falsy, so the `if row:` loop stops (and drops the popped row).
The claim's "does not return zero rows while rows remain" is therefore
false as stated. -/
theorem c10_counterexample_empty_row :
    sampleEmptyRowState.rows ≠ [] ∧
    fetchmany sampleEmptyRowState (some 0)
      = .ok ([], { sampleEmptyRowState with rows := [], rownumber := some 1 }) :=
  ⟨fun h => List.cons_ne_nil _ _ h, rfl⟩

theorem fetchmanyLoop_length (n : Nat) :
    ∀ (s : ResultSetState) (rs : List Row) (s1 : ResultSetState),
      fetchmanyLoop n s = .ok (rs, s1) → rs.length ≤ n := by
  induction n with
  | zero =>
      intro s rs s1 h
      obtain ⟨hrs, _⟩ := Prod.mk.injEq .. ▸ (Except.ok.injEq .. ▸ h)
      rw [← hrs]
      exact Nat.le_refl 0
  | succ n ih =>
      intro s rs s1 h
      unfold fetchmanyLoop at h
      split at h
      · exact absurd h (by simp)
      · obtain ⟨hrs, _⟩ := Prod.mk.injEq .. ▸ (Except.ok.injEq .. ▸ h)
        rw [← hrs]
        exact Nat.zero_le _
      · split at h
        · rename_i r s2 _ _
          cases hl : fetchmanyLoop n s2 with
          | error e => rw [hl] at h; exact absurd h (by simp)
          | ok p =>
              rw [hl] at h
              obtain ⟨rs2, s3⟩ := p
              obtain ⟨hrs, _⟩ := Prod.mk.injEq .. ▸ (Except.ok.injEq .. ▸ h)
              rw [← hrs]
              exact Nat.succ_le_succ (ih s2 rs2 s3 hl)
        · obtain ⟨hrs, _⟩ := Prod.mk.injEq .. ▸ (Except.ok.injEq .. ▸ h)
          rw [← hrs]
          exact Nat.zero_le _

/-- C10 (amended): `fetchmany` with size omitted/None/zero/negative
substitutes the configured `arraysize` for the requested count (so
`fetchmany(0)` is not an error), and returns at most that many rows; when
the first buffered row is truthy (non-empty) and `arraysize` is positive,
a successful `fetchmany(0)` returns at least one row — but a falsy
(empty-tuple) row stops collection early, so zero rows can be returned
while rows remain (see the counterexample). -/
theorem c10_fetchmany_size_substitution :
    (∀ (s : ResultSetState),
        effectiveFetchSize s none = s.arraysize ∧
        ∀ v : Int, v ≤ 0 →
          effectiveFetchSize s (some v) = s.arraysize ∧
          fetchmany s (some v) = fetchmany s none) ∧
    (∀ (s : ResultSetState) (size : Option Int) (rs : List Row) (s1 : ResultSetState),
        fetchmany s size = .ok (rs, s1) →
        rs.length ≤ (effectiveFetchSize s size).toNat) ∧
    (∀ (s : ResultSetState) (rs : List Row) (s1 : ResultSetState),
        0 < s.arraysize → s.rows ≠ [] → rowTruthy (s.rows.headD []) = true →
        fetchmany s (some 0) = .ok (rs, s1) → rs ≠ []) := by
  refine ⟨?_, ?_, ?_⟩
  · intro s
    refine ⟨rfl, fun v hv => ⟨?_, ?_⟩⟩
    · unfold effectiveFetchSize
      dsimp only
      rw [if_pos hv]
    · unfold fetchmany effectiveFetchSize
      dsimp only
      rw [if_pos hv]
  · intro s size rs s1 h
    exact fetchmanyLoop_length _ s rs s1 h
  · intro s rs s1 hpos hrows htruthy h
    obtain ⟨r, rest, hr⟩ : ∃ r rest, s.rows = r :: rest := by
      cases hc : s.rows with
      | nil => exact absurd hc hrows
      | cons a l => exact ⟨a, l, rfl⟩
    have heff : effectiveFetchSize s (some 0) = s.arraysize := by
      unfold effectiveFetchSize
      dsimp only
      rw [if_pos (by omega : (0 : Int) ≤ 0)]
    obtain ⟨m, hm⟩ : ∃ m, (effectiveFetchSize s (some 0)).toNat = m + 1 := by
      rw [heff]
      exact ⟨s.arraysize.toNat - 1, by omega⟩
    unfold fetchmany at h
    rw [hm] at h
    unfold fetchmanyLoop at h
    rw [fetchone_cons s r rest hr] at h
    have htr : rowTruthy r = true := by
      rw [hr] at htruthy
      exact htruthy
    dsimp only at h
    rw [if_pos htr] at h
    cases hl : fetchmanyLoop m { s with rows := rest, rownumber := some (s.rownumber.getD 0 + 1) } with
    | error e => rw [hl] at h; exact absurd h (by simp)
    | ok p =>
        rw [hl] at h
        obtain ⟨rs2, s3⟩ := p
        obtain ⟨hrs, _⟩ := Prod.mk.injEq .. ▸ (Except.ok.injEq .. ▸ h)
        rw [← hrs]
        exact List.cons_ne_nil r rs2

/-- Witness for C10 (amended): at `sampleState` (one truthy buffered row,
`arraysize = 10`), `fetchmany(0)` substitutes the arraysize, succeeds, and
returns a non-empty row list of length at most 10. -/
theorem c10_fetchmany_size_substitution_witness :
    effectiveFetchSize sampleState (some 0) = 10 ∧
    ∃ rs s1, fetchmany sampleState (some 0) = .ok (rs, s1) ∧
      rs ≠ [] ∧ rs.length ≤ 10 := by
  refine ⟨(c10_fetchmany_size_substitution.1 sampleState).2 0 (by decide) |>.1, ?_⟩
  refine ⟨[[PyValue.int 1], [PyValue.int 2]], _, rfl, ?_, ?_⟩
  · exact c10_fetchmany_size_substitution.2.2 sampleState _ _ (by decide)
      (fun hc => List.cons_ne_nil _ _ hc) (by rfl) rfl
  · exact c10_fetchmany_size_substitution.2.1 sampleState (some 0) _ _ rfl

end PyAthena
